import Mathlib

/-!
# Verification of the product-extraction pipeline (`scraper_makro.py`)

This file gives a shallow embedding, in Lean 4, of the extraction and
normalization core of the scraper: the path resolver `get_value`, the
per-field handlers (`_handle_category_in_supermarket`, `_handle_brand`,
`_handle_manufacturer`, `_handle_measuring_unit`, `_handle_is_weight_article`,
`_handle_ingredients`, `_handle_nutrition`, `_handle_characteristics`,
`_handle_offer_price`, `_handle_kg_gross`), the measurement normalizer
`parser_measuring`, and the per-field assembly loop of
`parser_product_details`.

JSON/Python values are modelled by the inductive type `JVal`; Python numbers
(ints and floats) are modelled as exact rationals, so `round(x, 2)` is
modelled as exact round-half-to-even on rationals.  Python exceptions are
modelled by `Except PyErr`: a `.error` value is a raised exception, a `.ok`
value is a normal return.
-/

attribute [local semireducible] Rat.add Rat.mul Rat.sub Rat.inv

/-- A JSON-compatible Python value: `None`, booleans, numbers (ints and
floats, modelled as exact rationals), strings, lists and dicts (as ordered
association lists, mirroring Python dict insertion order). -/
inductive JVal where
  | null : JVal
  | bool : Bool → JVal
  | num : ℚ → JVal
  | str : String → JVal
  | arr : List JVal → JVal
  | obj : List (String × JVal) → JVal
deriving Repr

/-- Python exception kinds that the embedded code can raise. -/
inductive PyErr where
  | typeError : PyErr
  | valueError : PyErr
  | attributeError : PyErr
  | keyError : PyErr
  | indexError : PyErr
  | zeroDivisionError : PyErr
deriving Repr, DecidableEq

/-- Python truthiness (`bool(v)`): `None`, `False`, `0`, `""`, `[]`, `{}` are
falsy, everything else is truthy. -/
def JVal.truthy : JVal → Bool
  | JVal.null => false
  | JVal.bool b => b
  | JVal.num q => q != 0
  | JVal.str s => s != ""
  | JVal.arr xs => !xs.isEmpty
  | JVal.obj kvs => !kvs.isEmpty

/-- `v is None` in Python. -/
def JVal.isNull : JVal → Bool
  | JVal.null => true
  | _ => false

/-- First value bound to `key` in an association list (Python dict lookup). -/
def lookupKV : List (String × JVal) → String → Option JVal
  | [], _ => none
  | (k, w) :: rest, key => if k == key then some w else lookupKV rest key

/-- Fuel-indexed Python `==` on JSON-compatible values: numbers compare by
value and `True`/`False` compare equal to `1`/`0`; lists compare pointwise;
dicts compare by key set and per-key values (insertion order is irrelevant).
The fuel bounds the nesting depth descended into, mirroring CPython's
default recursion limit of 1000, beyond which Python's `==` cannot recurse
(it raises `RecursionError`); no scraped document approaches that depth. -/
def pyEqF : Nat → JVal → JVal → Bool
  | 0, _, _ => false
  | Nat.succ n, v, w =>
    match v, w with
    | JVal.null, JVal.null => true
    | JVal.bool a, JVal.bool b => a == b
    | JVal.bool a, JVal.num q => (if a then (1 : ℚ) else 0) == q
    | JVal.num q, JVal.bool b => q == (if b then (1 : ℚ) else 0)
    | JVal.num a, JVal.num b => a == b
    | JVal.str a, JVal.str b => a == b
    | JVal.arr a, JVal.arr b =>
      a.length == b.length && (a.zip b).all (fun p => pyEqF n p.1 p.2)
    | JVal.obj a, JVal.obj b =>
      a.length == b.length &&
        a.all (fun kv =>
          match lookupKV b kv.1 with
          | some w2 => pyEqF n kv.2 w2
          | none => false)
    | _, _ => false

/-- Python `==` on JSON-compatible values (see `pyEqF`). -/
def pyEq (v w : JVal) : Bool := pyEqF 1000 v w

/-- Whether `key` occurs in an association list (Python `key in dict`). -/
def hasKeyL (kvs : List (String × JVal)) (key : String) : Bool :=
  kvs.any (fun kv => kv.1 == key)

/-- Substring test on character lists (Python `pat in s` for strings). -/
def listContainsSub (pat : List Char) : List Char → Bool
  | [] => pat.isEmpty
  | c :: rest => pat.isPrefixOf (c :: rest) || listContainsSub pat rest

/-- Python `key in obj`, where `key` is a string: dict key membership, list
element membership (via `==`), substring test on strings; `in` on a number,
boolean or `None` raises `TypeError`. -/
def pyContains (v : JVal) (key : String) : Except PyErr Bool :=
  match v with
  | JVal.obj kvs => Except.ok (hasKeyL kvs key)
  | JVal.arr xs => Except.ok (xs.any (fun x => pyEq x (JVal.str key)))
  | JVal.str s => Except.ok (listContainsSub key.data s.data)
  | _ => Except.error PyErr.typeError

/-- Python `obj[key]` for a string `key`: dict indexing; on a list or string a
string index raises `TypeError`. -/
def pyIndex (v : JVal) (key : String) : Except PyErr JVal :=
  match v with
  | JVal.obj kvs =>
    (match lookupKV kvs key with
     | some w => Except.ok w
     | none => Except.error PyErr.keyError)
  | JVal.arr _ => Except.error PyErr.typeError
  | JVal.str _ => Except.error PyErr.typeError
  | _ => Except.error PyErr.typeError

/-- Embedding of `Scraper.get_value` (the Path Resolver):

    if not obj or not chain: return ""
    key = chain.pop(0)
    if key in obj:
        return self.get_value(obj[key], chain) if chain else obj[key]
    return ""

The empty-string sentinel is returned for a falsy document or empty chain and
for an absent key; `key in obj` itself raises `TypeError` when `obj` is a
truthy number or boolean. -/
def get_value (v : JVal) : List String → Except PyErr JVal
  | [] => Except.ok (JVal.str "")
  | key :: rest =>
    if v.truthy then
      match pyContains v key with
      | Except.error e => Except.error e
      | Except.ok false => Except.ok (JVal.str "")
      | Except.ok true =>
        match pyIndex v key with
        | Except.error e => Except.error e
        | Except.ok w => if rest.isEmpty then Except.ok w else get_value w rest
    else Except.ok (JVal.str "")

/-- Whitespace-trim on character lists (Python `str.strip()`). -/
def trimChars (cs : List Char) : List Char :=
  ((cs.dropWhile Char.isWhitespace).reverse.dropWhile Char.isWhitespace).reverse

/-- Python `str.strip()`. -/
def trimS (s : String) : String := String.mk (trimChars s.data)

/-- Python `str.lower()` (ASCII letters; the embedded code only compares
against ASCII constants). -/
def lowerS (s : String) : String := String.mk (s.data.map Char.toLower)

/-- Numeric value of a digit list, e.g. `['8','5'] ↦ 85`. -/
def digitsVal (ds : List Char) : ℚ :=
  ds.foldl (fun acc c => acc * 10 + ((c.toNat - 48 : ℕ) : ℚ)) 0

/-- Parse a leading `\d+(?:\.\d+)?` from a character list, returning its
numeric value and the remaining characters; the optional fraction is taken
greedily, exactly as in the regular expression of `_extract_grams`. -/
def parseNumChars (cs : List Char) : Option (ℚ × List Char) :=
  let ds := cs.takeWhile Char.isDigit
  let rest := cs.dropWhile Char.isDigit
  if ds.isEmpty then none
  else
    match rest with
    | '.' :: rest2 =>
      let fs := rest2.takeWhile Char.isDigit
      if fs.isEmpty then some (digitsVal ds, rest)
      else some (digitsVal ds + digitsVal fs / (10 : ℚ) ^ fs.length,
                 rest2.dropWhile Char.isDigit)
    | _ => some (digitsVal ds, rest)

/-- Match the unit group `[kK]?[gG]`: returns whether the match is a
two-character `kg` variant (grams multiplier 1000) and the rest. -/
def unitSuffix : List Char → Option (Bool × List Char)
  | c1 :: c2 :: rest =>
    if (c1 == 'k' || c1 == 'K') && (c2 == 'g' || c2 == 'G') then
      some (true, rest)
    else if c1 == 'g' || c1 == 'G' then some (false, c2 :: rest)
    else none
  | [c1] => if c1 == 'g' || c1 == 'G' then some (false, []) else none
  | [] => none

/-- First alternative of the `_extract_grams` pattern at the current
position: `(\d+(?:\.\d+)?)x(\d+(?:\.\d+)?)([kK]?[gG])`, returning
`quantity * weight * multiplier`. -/
def matchMultiPack (cs : List Char) : Option ℚ :=
  match parseNumChars cs with
  | none => none
  | some (q1, r1) =>
    match r1 with
    | 'x' :: r2 =>
      (match parseNumChars r2 with
       | none => none
       | some (q2, r3) =>
         match unitSuffix r3 with
         | none => none
         | some (isKg, _) => some (q1 * q2 * (if isKg then 1000 else 1)))
    | _ => none

/-- Second alternative of the `_extract_grams` pattern at the current
position: `(\d+(?:\.\d+)?)([kK]?[gG])`, returning `weight * multiplier`. -/
def matchSinglePack (cs : List Char) : Option ℚ :=
  match parseNumChars cs with
  | none => none
  | some (w, r1) =>
    match unitSuffix r1 with
    | none => none
    | some (isKg, _) => some (w * (if isKg then 1000 else 1))

/-- `re.search` for the `_extract_grams` pattern: leftmost match position,
first alternative preferred, as in Python's `re` module. -/
def searchGrams : List Char → Option ℚ
  | [] => none
  | c :: rest =>
    match matchMultiPack (c :: rest) with
    | some g => some g
    | none =>
      match matchSinglePack (c :: rest) with
      | some g => some g
      | none => searchGrams rest

/-- Embedding of `_extract_grams` (inner function of `_handle_kg_gross`):
grams parsed from a product denomination, defaulting to 1000 when the
pattern does not match. -/
def extract_grams (d : String) : ℚ := (searchGrams d.data).getD 1000

/-- Python's `float(s)` on the decimal-literal forms the scraper encounters:
optional surrounding whitespace, optional sign, `digits`, `digits.digits`,
`digits.` or `.digits`; anything else raises `ValueError` (exponents and the
`inf`/`nan` spellings, which never occur in this data, are not modelled). -/
def parseFloat? (s : String) : Option ℚ :=
  let cs := trimChars s.data
  let signed : ℚ × List Char :=
    match cs with
    | '+' :: r => (1, r)
    | '-' :: r => (-1, r)
    | r => (1, r)
  let ds := signed.2.takeWhile Char.isDigit
  let r1 := signed.2.dropWhile Char.isDigit
  match r1 with
  | [] => if ds.isEmpty then none else some (signed.1 * digitsVal ds)
  | '.' :: r2 =>
    let fs := r2.takeWhile Char.isDigit
    let r3 := r2.dropWhile Char.isDigit
    if r3.isEmpty then
      if ds.isEmpty && fs.isEmpty then none
      else some (signed.1 * (digitsVal ds + digitsVal fs / (10 : ℚ) ^ fs.length))
    else none
  | _ => none

/-- Round a rational to the nearest integer, ties to even — the tie-breaking
rule of Python 3's `round`. -/
def roundHalfEven (q : ℚ) : ℤ :=
  let f := ⌊q⌋
  let r := q - (f : ℚ)
  if r < 1 / 2 then f
  else if 1 / 2 < r then f + 1
  else if f % 2 = 0 then f else f + 1

/-- Python's `round(x, 2)` on exact rationals. -/
def round2 (q : ℚ) : ℚ := ((roundHalfEven (q * 100) : ℤ) : ℚ) / 100

/-- The record under assembly: an insertion-ordered association list,
mirroring the Python dict `items`. -/
abbrev Items := List (String × JVal)

/-- Python `items[key] = v`: replace the value in place if the key exists,
else append the binding. -/
def setKey : Items → String → JVal → Items
  | [], key, v => [(key, v)]
  | (k, w) :: rest, key, v =>
    if k == key then (key, v) :: rest else (k, w) :: setKey rest key v

/-- Python `items.get(key, d)`. -/
def getKeyD (items : Items) (key : String) (d : JVal) : JVal :=
  (lookupKV items key).getD d

/-- Python `key in items` for the record. -/
def hasKeyI : Items → String → Bool
  | [], _ => false
  | (k, _) :: rest, key => k == key || hasKeyI rest key

/-- Python `d.get(key, default)` on an arbitrary value: raises
`AttributeError` when the receiver is not a dict. -/
def pyGetD (v : JVal) (key : String) (d : JVal) : Except PyErr JVal :=
  match v with
  | JVal.obj kvs => Except.ok ((lookupKV kvs key).getD d)
  | _ => Except.error PyErr.attributeError

/-- Python iteration `for x in v`: list elements, string characters, dict
keys; iterating `None`, a number or a boolean raises `TypeError`. -/
def pyIter : JVal → Except PyErr (List JVal)
  | JVal.arr xs => Except.ok xs
  | JVal.str s => Except.ok (s.data.map (fun c => JVal.str (String.mk [c])))
  | JVal.obj kvs => Except.ok (kvs.map (fun kv => JVal.str kv.1))
  | _ => Except.error PyErr.typeError

/-- Python `v[0]`: first list element or first character; a dict raises
`KeyError` (no key `0`), a number `TypeError`, an empty sequence
`IndexError`. -/
def pyFirst : JVal → Except PyErr JVal
  | JVal.arr (x :: _) => Except.ok x
  | JVal.arr [] => Except.error PyErr.indexError
  | JVal.str s =>
    (match s.data with
     | c :: _ => Except.ok (JVal.str (String.mk [c]))
     | [] => Except.error PyErr.indexError)
  | JVal.obj _ => Except.error PyErr.keyError
  | _ => Except.error PyErr.typeError

/-- Numeric view used for Python arithmetic: numbers as themselves, booleans
as 0/1 (`bool` is a subclass of `int`), everything else not a number. -/
def toNumQ : JVal → Option ℚ
  | JVal.num q => some q
  | JVal.bool b => some (if b then 1 else 0)
  | _ => none

/-- `isinstance(v, (int, float))` — true for numbers and booleans. -/
def isNumB : JVal → Bool
  | JVal.num _ => true
  | JVal.bool _ => true
  | _ => false

/-- Python `float(v)`: numbers and booleans convert, strings are parsed
(raising `ValueError` when unparseable), `None`/lists/dicts raise
`TypeError`. -/
def pyFloatJ : JVal → Except PyErr ℚ
  | JVal.num q => Except.ok q
  | JVal.bool b => Except.ok (if b then 1 else 0)
  | JVal.str s =>
    (match parseFloat? s with
     | some q => Except.ok q
     | none => Except.error PyErr.valueError)
  | _ => Except.error PyErr.typeError

/-- Python `v * f` where `f` is a float: numeric for numbers/booleans,
`TypeError` otherwise (sequence repetition needs an int). -/
def pyMulFloat (a : JVal) (q : ℚ) : Except PyErr ℚ :=
  match a with
  | JVal.num m => Except.ok (m * q)
  | JVal.bool b => Except.ok ((if b then (1 : ℚ) else 0) * q)
  | _ => Except.error PyErr.typeError

/-- Python `v * 1000` with the int literal `1000`: numeric for numbers and
booleans, sequence repetition for strings and lists, `TypeError` for
`None`/dicts. -/
def pyMul1000 (v : JVal) : Except PyErr JVal :=
  match v with
  | JVal.num p => Except.ok (JVal.num (p * 1000))
  | JVal.bool b => Except.ok (JVal.num ((if b then (1 : ℚ) else 0) * 1000))
  | JVal.str s => Except.ok (JVal.str (String.join (List.replicate 1000 s)))
  | JVal.arr xs => Except.ok (JVal.arr (List.flatten (List.replicate 1000 xs)))
  | _ => Except.error PyErr.typeError

/-- The exceptions caught by the `except (ZeroDivisionError, TypeError)`
clauses of `_handle_offer_price` and `_handle_kg_gross`. -/
def catchZT (e : PyErr) : Bool :=
  e == PyErr.zeroDivisionError || e == PyErr.typeError

/-- Path of the alternate per-unit net price used by `_handle_kg_gross`. -/
def netPricePath : List String :=
  ["variants", "0032", "bundles", "0021", "stores", "00057",
   "sellingPriceInfo", "basePriceData", "pricePerUnit", "netPrice"]

/-- `re.search(pattern, d)` requires a string subject; `_extract_grams` on a
non-string denomination raises `TypeError`. -/
def extractGramsJ : JVal → Except PyErr ℚ
  | JVal.str d => Except.ok (extract_grams d)
  | _ => Except.error PyErr.typeError

/-- The `try` block of `_handle_kg_gross`'s fallback computation:

    if items.get('measuringUnit'):
        measure_val = items.get("measuringUnit", {}).get("value", 1)
    else:
        measure_val = 1
    unit_count  = measure_val * float(items.get("units", 1))
    price_w_tax = items.get("priceWithTax", 0)
    grams = _extract_grams(items.get('denomination'))
    round(price_w_tax * 1000 / (grams * unit_count), 2)
-/
def kgGrossCompute (items : Items) : Except PyErr JVal :=
  let mu := getKeyD items "measuringUnit" JVal.null
  match (if mu.truthy then pyGetD mu "value" (JVal.num 1)
         else Except.ok (JVal.num 1)) with
  | Except.error e => Except.error e
  | Except.ok mv =>
    match pyFloatJ (getKeyD items "units" (JVal.num 1)) with
    | Except.error e => Except.error e
    | Except.ok uf =>
      match pyMulFloat mv uf with
      | Except.error e => Except.error e
      | Except.ok uc =>
        let pwt := getKeyD items "priceWithTax" (JVal.num 0)
        match extractGramsJ (getKeyD items "denomination" JVal.null) with
        | Except.error e => Except.error e
        | Except.ok grams =>
          match pyMul1000 pwt with
          | Except.error e => Except.error e
          | Except.ok numer =>
            match toNumQ numer with
            | none => Except.error PyErr.typeError
            | some n =>
              if grams * uc = 0 then Except.error PyErr.zeroDivisionError
              else Except.ok (JVal.num (round2 (n / (grams * uc))))

/-- Embedding of `_handle_kg_gross` (the Unit-Price Reconstructor).  Returns
the handler's return value, the updated record, and whether the fallback
computation ran (the `CALCULATED = True` audit signal).  The cascade: a
non-`None` raw value is stored directly as `unitPrice`; else a numeric
alternate net price is stored directly; else the computed quotient is stored,
with `ZeroDivisionError`/`TypeError` degrading `unitPrice` to `None`. -/
def handle_kg_gross (val : JVal) (items : Items) (result : JVal) :
    Except PyErr (JVal × Items × Bool) :=
  if val.isNull then
    match get_value result netPricePath with
    | Except.error e => Except.error e
    | Except.ok alt =>
      if isNumB alt then Except.ok (val, setKey items "unitPrice" alt, false)
      else
        match kgGrossCompute items with
        | Except.ok up => Except.ok (val, setKey items "unitPrice" up, true)
        | Except.error e =>
          if catchZT e then
            Except.ok (val, setKey items "unitPrice" JVal.null, false)
          else Except.error e
  else Except.ok (val, setKey items "unitPrice" val, false)

/-- Path of the promotion labels used by `_handle_offer_price`. -/
def promoPath : List String :=
  ["variants", "0032", "bundles", "0021", "stores", "00057",
   "sellingPriceInfo", "promotionLabels"]

/-- Path of the multi-level discount data used by `_handle_offer_price`. -/
def levelsPath : List String :=
  ["variants", "0032", "bundles", "0021", "stores", "00057",
   "sellingPriceInfo", "summaryDnrInfo", "levels"]

/-- First `try` block of `_handle_offer_price`:
`round(1.0 - val / items.get("price", 1), 2)`. -/
def percentCompute (val : JVal) (items : Items) : Except PyErr JVal :=
  let shelf := getKeyD items "price" (JVal.num 1)
  match toNumQ val, toNumQ shelf with
  | some x, some y =>
    if y = 0 then Except.error PyErr.zeroDivisionError
    else Except.ok (JVal.num (round2 (1 - x / y)))
  | _, _ => Except.error PyErr.typeError

/-- Second `try` block of `_handle_offer_price`:

    measuringUnit = items.get("measuringUnit", {})
    if not measuringUnit: unit_count = 1
    else: unit_count = measuringUnit.get("value", 1) * float(items.get("units", 1))
    round(val / unit_count, 2)
-/
def upwoCompute (val : JVal) (items : Items) : Except PyErr JVal :=
  let mu := getKeyD items "measuringUnit" (JVal.obj [])
  match (if mu.truthy then
           match pyGetD mu "value" (JVal.num 1) with
           | Except.error e => Except.error e
           | Except.ok mv =>
             match pyFloatJ (getKeyD items "units" (JVal.num 1)) with
             | Except.error e => Except.error e
             | Except.ok uf => pyMulFloat mv uf
         else Except.ok (1 : ℚ)) with
  | Except.error e => Except.error e
  | Except.ok uc =>
    match toNumQ val with
    | some x =>
      if uc = 0 then Except.error PyErr.zeroDivisionError
      else Except.ok (JVal.num (round2 (x / uc)))
    | none => Except.error PyErr.typeError

/-- The first `try`/`except (ZeroDivisionError, TypeError)` block of
`_handle_offer_price`: store the percent promotion, swallowing the two
caught exception kinds. -/
def tryPercent (val : JVal) (items0 : Items) : Except PyErr Items :=
  match percentCompute val items0 with
  | Except.ok p => Except.ok (setKey items0 "percentPromotion" p)
  | Except.error e =>
    if catchZT e then Except.ok items0 else Except.error e

/-- The second `try`/`except (ZeroDivisionError, TypeError)` block of
`_handle_offer_price`: store the offer unit price, swallowing the two
caught exception kinds. -/
def tryUpwo (val : JVal) (items1 : Items) : Except PyErr Items :=
  match upwoCompute val items1 with
  | Except.ok p => Except.ok (setKey items1 "unitPriceWithOffer" p)
  | Except.error e =>
    if catchZT e then Except.ok items1 else Except.error e

/-- Embedding of `_handle_offer_price` (the Promotion Evaluator).  Sets
`unitPriceWithOffer` and `percentPromotion` to `None`; when the raw offer
price `pyEq`-equals the already-set shelf price, returns `None` exactly when
neither promotion labels nor levels are present, and the raw value otherwise;
when it differs, computes the two derived fields inside
`except (ZeroDivisionError, TypeError)` guards and returns the raw value. -/
def handle_offer_price (val : JVal) (items : Items) (result : JVal) :
    Except PyErr (JVal × Items) :=
  let items0 :=
    setKey (setKey items "unitPriceWithOffer" JVal.null) "percentPromotion"
      JVal.null
  if pyEq val (getKeyD items0 "price" JVal.null) then
    match get_value result promoPath with
    | Except.error e => Except.error e
    | Except.ok pl =>
      match get_value result levelsPath with
      | Except.error e => Except.error e
      | Except.ok lv =>
        if !pl.truthy && !lv.truthy then Except.ok (JVal.null, items0)
        else Except.ok (val, items0)
  else
    match tryPercent val items0 with
    | Except.error e => Except.error e
    | Except.ok items1 =>
      match tryUpwo val items1 with
      | Except.error e => Except.error e
      | Except.ok items2 => Except.ok (val, items2)

/-- Path of the bundle-selector format token used by `parser_measuring`. -/
def fmtPath : List String := ["variants", "0032", "bundleSelector", "0021"]

/-- Path of the overriding net content volume used by `parser_measuring`. -/
def ncvPath : List String :=
  ["variants", "0032", "bundles", "0021", "contentData", "netContentVolume"]

/-- Path of the fallback net piece weight used by `_handle_measuring_unit`. -/
def npwPath : List String :=
  ["variants", "0032", "bundles", "0021", "contentData", "netPieceWeight"]

/-- `re.sub(r'\d+', "", s)`: remove every digit character. -/
def stripDigitsS (s : String) : String :=
  String.mk (s.data.filter (fun c => !c.isDigit))

/-- The `{"format": …, "value": …, "unit": …}` dict returned by
`parser_measuring`. -/
def measureOut (fmt v u : JVal) : JVal :=
  JVal.obj [("format", fmt), ("value", v), ("unit", u)]

/-- Python `v / 1000`: numeric for numbers/booleans, `TypeError` otherwise. -/
def div1000 (v : JVal) : Except PyErr JVal :=
  match v with
  | JVal.num q => Except.ok (JVal.num (q / 1000))
  | JVal.bool b => Except.ok (JVal.num ((if b then (1 : ℚ) else 0) / 1000))
  | _ => Except.error PyErr.typeError

/-- Embedding of `parser_measuring` (the Measurement Normalizer): derives the
format token from the bundle-selector path (digits stripped, trimmed), lets a
truthy net-content-volume dict override the passed-in `{value, uom}` pair,
then converts GRAM→KG and ML→L dividing the value by 1000 (0 when falsy),
passes KG/L through (`value or 0`), and passes any other unit through
(`unit or ""`, `value or 0`). -/
def parser_measuring (value_dict : JVal) (result : JVal) : Except PyErr JVal :=
  match get_value result fmtPath with
  | Except.error e => Except.error e
  | Except.ok fv =>
    match (if fv.truthy then
             match fv with
             | JVal.str s => Except.ok (JVal.str (trimS (stripDigitsS s)))
             | _ => Except.error PyErr.typeError
           else Except.ok fv) with
    | Except.error e => Except.error e
    | Except.ok fmt =>
      match get_value result ncvPath with
      | Except.error e => Except.error e
      | Except.ok other =>
        let vd := if other.truthy then other else value_dict
        match pyGetD vd "value" JVal.null with
        | Except.error e => Except.error e
        | Except.ok value =>
          match pyGetD vd "uom" JVal.null with
          | Except.error e => Except.error e
          | Except.ok unit =>
            if pyEq unit (JVal.str "GRAM") then
              match (if value.truthy then div1000 value
                     else Except.ok (JVal.num 0)) with
              | Except.error e => Except.error e
              | Except.ok v2 => Except.ok (measureOut fmt v2 (JVal.str "KG"))
            else if pyEq unit (JVal.str "ML") then
              match (if value.truthy then div1000 value
                     else Except.ok (JVal.num 0)) with
              | Except.error e => Except.error e
              | Except.ok v2 => Except.ok (measureOut fmt v2 (JVal.str "L"))
            else if pyEq unit (JVal.str "KG") || pyEq unit (JVal.str "L") then
              Except.ok
                (measureOut fmt (if value.truthy then value else JVal.num 0)
                  unit)
            else
              Except.ok
                (measureOut fmt (if value.truthy then value else JVal.num 0)
                  (if unit.truthy then unit else JVal.str ""))

/-- Embedding of `_handle_measuring_unit`: normalize the primary content-data
value when truthy, else re-resolve the net-piece-weight fallback path and
normalize that when truthy, else `None`. -/
def handle_measuring_unit (val : JVal) (result : JVal) : Except PyErr JVal :=
  if val.truthy then parser_measuring val result
  else
    match get_value result npwPath with
    | Except.error e => Except.error e
    | Except.ok fb =>
      if fb.truthy then parser_measuring fb result else Except.ok JVal.null

/-- Python `str.replace(" / ", "/")`: leftmost, non-overlapping. -/
def replaceSpSlashSp : List Char → List Char
  | ' ' :: '/' :: ' ' :: rest => '/' :: replaceSpSlashSp rest
  | c :: rest => c :: replaceSpSlashSp rest
  | [] => []

/-- Embedding of `_handle_category_in_supermarket`: a truthy list yields
`first.get('name', "").replace(" / ", "/")` (raising `AttributeError` on a
non-dict first node or a non-string name), anything else yields `None`. -/
def handle_category_in_supermarket (val : JVal) : Except PyErr JVal :=
  if val.truthy then
    match val with
    | JVal.arr (x :: _) =>
      (match pyGetD x "name" (JVal.str "") with
       | Except.error e => Except.error e
       | Except.ok (JVal.str s) =>
         Except.ok (JVal.str (String.mk (replaceSpSlashSp s.data)))
       | Except.ok _ => Except.error PyErr.attributeError)
    | _ => Except.ok JVal.null
  else Except.ok JVal.null

/-- Embedding of `_handle_brand`: `val if val else "MAKRO"`. -/
def handle_brand (val : JVal) : JVal :=
  if val.truthy then val else JVal.str "MAKRO"

/-- Embedding of `_handle_manufacturer`:
`{"name": val.strip(), "address": None} if val else None`. -/
def handle_manufacturer (val : JVal) : Except PyErr JVal :=
  if val.truthy then
    match val with
    | JVal.str s =>
      Except.ok (JVal.obj [("name", JVal.str (trimS s)), ("address", JVal.null)])
    | _ => Except.error PyErr.attributeError
  else Except.ok JVal.null

/-- `str(val).lower().strip() == 'weight'`.  For non-string values `str()`
yields `"None"`, `"True"`, `"False"`, numerals or bracketed container reprs,
none of which equals `"weight"` after lowering and stripping, so only string
values can pass the test. -/
def isWeightVal : JVal → Bool
  | JVal.str s => trimS (lowerS s) == "weight"
  | _ => false

/-- Embedding of `_handle_is_weight_article`. -/
def handle_is_weight_article (val : JVal) : JVal :=
  if isWeightVal val then JVal.str "WEIGHT" else JVal.null

/-- The truthy `leaf.get("label")` values of an ingredient block, in order. -/
def leafLabels : List JVal → Except PyErr (List JVal)
  | [] => Except.ok []
  | leaf :: rest =>
    match pyGetD leaf "label" JVal.null with
    | Except.error e => Except.error e
    | Except.ok v =>
      match leafLabels rest with
      | Except.error e => Except.error e
      | Except.ok vs => Except.ok (if v.truthy then v :: vs else vs)

/-- The loop of `_handle_ingredients`: collect leaf labels of every data
block labelled `"Listado de ingredientes"`. -/
def gatherIngredients : List JVal → Except PyErr (List JVal)
  | [] => Except.ok []
  | d :: rest =>
    match pyGetD d "label" JVal.null with
    | Except.error e => Except.error e
    | Except.ok lab =>
      if pyEq lab (JVal.str "Listado de ingredientes") then
        match pyGetD d "leafs" (JVal.arr []) with
        | Except.error e => Except.error e
        | Except.ok leafs =>
          match pyIter leafs with
          | Except.error e => Except.error e
          | Except.ok ls =>
            match leafLabels ls with
            | Except.error e => Except.error e
            | Except.ok vs =>
              match gatherIngredients rest with
              | Except.error e => Except.error e
              | Except.ok ws => Except.ok (vs ++ ws)
      else gatherIngredients rest

/-- All-strings view of a list, for Python `" ".join(...)` which raises
`TypeError` on a non-string item. -/
def strList : List JVal → Option (List String)
  | [] => some []
  | JVal.str s :: rest => (strList rest).map (fun ss => s :: ss)
  | _ => none

/-- Python `sep.join(xs)`. -/
def pyJoin (sep : String) (xs : List JVal) : Except PyErr JVal :=
  match strList xs with
  | some ss => Except.ok (JVal.str (String.intercalate sep ss))
  | none => Except.error PyErr.typeError

/-- Embedding of `_handle_ingredients`: iterate the raw value, collect the
leaf labels of the `"Listado de ingredientes"` block, join them with single
spaces; `None` when none found. -/
def handle_ingredients (val : JVal) : Except PyErr JVal :=
  match pyIter val with
  | Except.error e => Except.error e
  | Except.ok ds =>
    match gatherIngredients ds with
    | Except.error e => Except.error e
    | Except.ok ing =>
      if ing.isEmpty then Except.ok JVal.null else pyJoin " " ing

/-- The fixed nutrition label→canonical-key dictionary (8 entries). -/
def nutriFields : List (String × String) :=
  [("Valor energético kcal", "calories"),
   ("Proteínas", "protein"),
   ("Grasas", "fat"),
   ("de los cuales azúcares", "sugars"),
   ("Hidratos de carbono", "carbohydrates"),
   ("Fibra alimentaria", "fiber"),
   ("de las cuales saturadas", "saturatedFattyAcids"),
   ("Sal", "salt")]

/-- Lookup in a string-to-string table. -/
def lookupStr : List (String × String) → String → Option String
  | [], _ => none
  | (k, v) :: rest, key => if k == key then some v else lookupStr rest key

/-- The row loop of `_handle_nutrition`: map each row's label through the
fixed dictionary; for matched rows with a truthy `cells` value whose first
element is a dict, record `{value, unit}` from that first cell.  A row that
is not a dict raises `AttributeError`; an unhashable (list/dict) label
raises `TypeError`; a truthy non-indexable `cells` raises on `cells[0]`. -/
def nutriRows : List JVal → Items → Except PyErr Items
  | [], acc => Except.ok acc
  | row :: rest, acc =>
    match pyGetD row "rowLabel" JVal.null with
    | Except.error e => Except.error e
    | Except.ok lab =>
      match lab with
      | JVal.arr _ => Except.error PyErr.typeError
      | JVal.obj _ => Except.error PyErr.typeError
      | JVal.str s =>
        (match lookupStr nutriFields s with
         | none => nutriRows rest acc
         | some key =>
           match pyGetD row "cells" (JVal.arr []) with
           | Except.error e => Except.error e
           | Except.ok aux =>
             if aux.truthy then
               match pyFirst aux with
               | Except.error e => Except.error e
               | Except.ok first =>
                 match first with
                 | JVal.obj dkvs =>
                   nutriRows rest
                     (setKey acc key
                       (JVal.obj
                         [("value", (lookupKV dkvs "value").getD JVal.null),
                          ("unit",
                           (lookupKV dkvs "unitOfMeasure").getD JVal.null)]))
                 | _ => nutriRows rest acc
             else nutriRows rest acc)
      | _ => nutriRows rest acc

/-- Embedding of `_handle_nutrition`: `None` for any non-dict raw value; for
a dict, iterate `val.get('rows', [])` through `nutriRows` and return the
accumulated (possibly empty) mapping. -/
def handle_nutrition (val : JVal) : Except PyErr JVal :=
  match val with
  | JVal.obj kvs =>
    (match pyIter ((lookupKV kvs "rows").getD (JVal.arr [])) with
     | Except.error e => Except.error e
     | Except.ok rows =>
       match nutriRows rows [] with
       | Except.error e => Except.error e
       | Except.ok m => Except.ok (JVal.obj m))
  | _ => Except.ok JVal.null

/-- Whitespace-split into words, dropping empty tokens (Python
`str.split()`). -/
def wordsAux : List Char → List Char → List String
  | [], acc => if acc.isEmpty then [] else [String.mk acc.reverse]
  | c :: rest, acc =>
    if c.isWhitespace then
      if acc.isEmpty then wordsAux rest []
      else String.mk acc.reverse :: wordsAux rest []
    else wordsAux rest (c :: acc)

/-- Python `" ".join(s.split())`: collapse whitespace runs to single
spaces and strip the ends. -/
def collapseWs (s : String) : String :=
  String.intercalate " " (wordsAux s.data [])

/-- The cell-joining generator of `_handle_characteristics`:
`" ".join(cell[key].strip() for key in cell if cell.get(key))`.  A dict cell
joins its truthy values stripped (`AttributeError` on a non-string value); a
non-empty string or list cell raises `AttributeError` at `cell.get`; an
empty string or list yields `""`; anything else is not iterable. -/
def cellParts : List (String × JVal) → Except PyErr (List String)
  | [] => Except.ok []
  | (_, v) :: rest =>
    if v.truthy then
      match v with
      | JVal.str s =>
        (match cellParts rest with
         | Except.error e => Except.error e
         | Except.ok ps => Except.ok (trimS s :: ps))
      | _ => Except.error PyErr.attributeError
    else cellParts rest

/-- See `cellParts`. -/
def cellJoin : JVal → Except PyErr String
  | JVal.obj kvs =>
    (match cellParts kvs with
     | Except.error e => Except.error e
     | Except.ok ps => Except.ok (String.intercalate " " ps))
  | JVal.str s => if s.data.isEmpty then Except.ok "" else Except.error PyErr.attributeError
  | JVal.arr xs => if xs.isEmpty then Except.ok "" else Except.error PyErr.attributeError
  | _ => Except.error PyErr.typeError

/-- The inner cell loop of `_handle_characteristics`: append
`"<label>: <value>"` for each cell whose joined, stripped value is
non-empty. -/
def charCells : List JVal → String → List String → Except PyErr (List String)
  | [], _, acc => Except.ok acc
  | cell :: rest, label, acc =>
    match cellJoin cell with
    | Except.error e => Except.error e
    | Except.ok raw =>
      let value := trimS raw
      if value == "" then charCells rest label acc
      else charCells rest label (acc ++ [label ++ ": " ++ value])

/-- The row loop of `_handle_characteristics`: rows with empty (stripped)
labels are skipped; a non-string `rowLabel` raises `AttributeError` at
`.strip()`. -/
def charRows : List JVal → List String → Except PyErr (List String)
  | [], acc => Except.ok acc
  | row :: rest, acc =>
    match pyGetD row "rowLabel" (JVal.str "") with
    | Except.error e => Except.error e
    | Except.ok lraw =>
      match lraw with
      | JVal.str s0 =>
        (match pyGetD row "cells" (JVal.arr []) with
         | Except.error e => Except.error e
         | Except.ok cellsV =>
           let label := trimS s0
           if label == "" then charRows rest acc
           else
             match pyIter cellsV with
             | Except.error e => Except.error e
             | Except.ok cells =>
               match charCells cells label acc with
               | Except.error e => Except.error e
               | Except.ok acc2 => charRows rest acc2)
      | _ => Except.error PyErr.attributeError

/-- Embedding of `_handle_characteristics`: `None` for any non-dict raw
value; for a dict with truthy `rows`, gather `"<label>: <value>"` entries,
join with `". "` and collapse whitespace; `None` when nothing gathered. -/
def handle_characteristics (val : JVal) : Except PyErr JVal :=
  match val with
  | JVal.obj kvs =>
    (match (if ((lookupKV kvs "rows").getD JVal.null).truthy then
              match pyIter ((lookupKV kvs "rows").getD JVal.null) with
              | Except.error e => Except.error e
              | Except.ok rs => charRows rs []
            else Except.ok []) with
     | Except.error e => Except.error e
     | Except.ok chars =>
       if chars.isEmpty then Except.ok JVal.null
       else Except.ok (JVal.str (collapseWs (String.intercalate ". " chars))))
  | _ => Except.ok JVal.null

/-- The static field map of `parser_product_details`, in its Python
insertion order. -/
def fieldsMap : List (String × List String) :=
  [("productIdInSupermarket",
    ["variants", "0032", "bundles", "0021", "customerDisplayId"]),
   ("denomination", ["variants", "0032", "description"]),
   ("categoryInSupermarket", ["variants", "0032", "categories"]),
   ("brand", ["brandName"]),
   ("manufacturer",
    ["variants", "0032", "bundles", "0021", "stores", "00057", "supplier",
     "supplierName"]),
   ("description",
    ["variants", "0032", "bundles", "0021", "details", "longDescription"]),
   ("measuringUnit",
    ["variants", "0032", "bundles", "0021", "contentData", "weightPerPiece"]),
   ("units",
    ["variants", "0032", "bundles", "0021", "selector", "contentSize"]),
   ("priceWithTax",
    ["variants", "0032", "bundles", "0021", "stores", "00057",
     "sellingPriceInfo", "finalPrice"]),
   ("price",
    ["variants", "0032", "bundles", "0021", "stores", "00057",
     "sellingPriceInfo", "shelfPrice"]),
   ("offerPrice",
    ["variants", "0032", "bundles", "0021", "stores", "00057",
     "sellingPriceInfo", "basePrice"]),
   ("kgGross",
    ["variants", "0032", "bundles", "0021", "stores", "00057",
     "sellingPriceInfo", "kgGross"]),
   ("isWeightArticle",
    ["variants", "0032", "bundles", "0021", "isWeightArticle"]),
   ("rawIngredients",
    ["variants", "0032", "bundles", "0021", "details", "features"]),
   ("nutritionInformation",
    ["variants", "0032", "bundles", "0021", "details", "nutritionalTable"]),
   ("characteristics",
    ["variants", "0032", "bundles", "0021", "details",
     "characteristicsTable"]),
   ("promotion",
    ["variants", "0032", "bundles", "0021", "stores", "00057",
     "sellingPriceInfo", "summaryDnrInfo", "name"])]

/-- Dispatch of the `field_handlers` table: apply the registered handler to
the raw value, returning the value to store, the (possibly cross-field
updated) record, and the audit signal from the kgGross handler; fields with
no handler store the raw value verbatim. -/
def applyHandler (key : String) (raw : JVal) (items : Items) (result : JVal) :
    Except PyErr (JVal × Items × Bool) :=
  if key == "categoryInSupermarket" then
    match handle_category_in_supermarket raw with
    | Except.error e => Except.error e
    | Except.ok v => Except.ok (v, items, false)
  else if key == "brand" then Except.ok (handle_brand raw, items, false)
  else if key == "manufacturer" then
    match handle_manufacturer raw with
    | Except.error e => Except.error e
    | Except.ok v => Except.ok (v, items, false)
  else if key == "measuringUnit" then
    match handle_measuring_unit raw result with
    | Except.error e => Except.error e
    | Except.ok v => Except.ok (v, items, false)
  else if key == "isWeightArticle" then
    Except.ok (handle_is_weight_article raw, items, false)
  else if key == "rawIngredients" then
    match handle_ingredients raw with
    | Except.error e => Except.error e
    | Except.ok v => Except.ok (v, items, false)
  else if key == "nutritionInformation" then
    match handle_nutrition raw with
    | Except.error e => Except.error e
    | Except.ok v => Except.ok (v, items, false)
  else if key == "characteristics" then
    match handle_characteristics raw with
    | Except.error e => Except.error e
    | Except.ok v => Except.ok (v, items, false)
  else if key == "offerPrice" then
    match handle_offer_price raw items result with
    | Except.error e => Except.error e
    | Except.ok (v, items2) => Except.ok (v, items2, false)
  else if key == "kgGross" then handle_kg_gross raw items result
  else Except.ok (raw, items, false)

/-- One iteration of the Record Assembler's per-field loop: resolve the raw
value by the field's path, transform it, and store it under the field key. -/
def applyField (result : JVal) (items : Items) (key : String)
    (path : List String) : Except PyErr (Items × Bool) :=
  match get_value result path with
  | Except.error e => Except.error e
  | Except.ok raw =>
    match applyHandler key raw items result with
    | Except.error e => Except.error e
    | Except.ok (v, items2, d) => Except.ok (setKey items2 key v, d)

/-- The Record Assembler's per-field loop over a field list, threading the
record and the `CALCULATED` audit flag (set, never read, by the kgGross
handler). -/
def runFieldsAux (result : JVal) :
    List (String × List String) → Items → Bool → Except PyErr (Items × Bool)
  | [], items, flag => Except.ok (items, flag)
  | (key, path) :: rest, items, flag =>
    match applyField result items key path with
    | Except.error e => Except.error e
    | Except.ok (items2, d) => runFieldsAux result rest items2 (flag || d)

/-- The field-extraction pass of `parser_product_details` (lines 214–221):
the full per-field loop over the static field map, from an empty record and
a given initial state of the `CALCULATED` audit flag. -/
def runFields (result : JVal) (flag : Bool) : Except PyErr (Items × Bool) :=
  runFieldsAux result fieldsMap [] flag

/-- `isinstance(v, dict)`. -/
def isDictB : JVal → Bool
  | JVal.obj _ => true
  | _ => false

/-- Well-shaped `cells` value of a nutrition row: falsy (skipped), or a list
(indexable without error; a non-dict first element is skipped). -/
def cellsOK : JVal → Bool
  | JVal.arr _ => true
  | v => !v.truthy

/-- Well-shaped nutrition row: a dict whose `rowLabel` is hashable (not a
list or dict) and whose `cells` value is well shaped. -/
def rowOK : JVal → Bool
  | JVal.obj rkvs =>
    (match (lookupKV rkvs "rowLabel").getD JVal.null with
     | JVal.arr _ => false
     | JVal.obj _ => false
     | _ => true) &&
    cellsOK ((lookupKV rkvs "cells").getD (JVal.arr []))
  | _ => false

/-- The record assembled from a document in which every field path misses at
its first key: each field-map key is present, raw fields hold the empty
sentinel, handled fields hold their defaults (`None`, `"MAKRO"`), and the
derived price fields are `None` — except `unitPrice`, which stores the
non-`None` sentinel directly. -/
def missingRecord : Items :=
  [("productIdInSupermarket", JVal.str ""), ("denomination", JVal.str ""),
   ("categoryInSupermarket", JVal.null), ("brand", JVal.str "MAKRO"),
   ("manufacturer", JVal.null), ("description", JVal.str ""),
   ("measuringUnit", JVal.null), ("units", JVal.str ""),
   ("priceWithTax", JVal.str ""), ("price", JVal.str ""),
   ("unitPriceWithOffer", JVal.null), ("percentPromotion", JVal.null),
   ("offerPrice", JVal.null), ("unitPrice", JVal.str ""),
   ("kgGross", JVal.str ""), ("isWeightArticle", JVal.null),
   ("rawIngredients", JVal.null), ("nutritionInformation", JVal.null),
   ("characteristics", JVal.null), ("promotion", JVal.str "")]

/-- C3, counterexample: on the document `{"a": 5}` and the chain
`["a", "b"]`, `get_value` reaches the truthy intermediate value `5` and the
membership test `"b" in 5` raises `TypeError` — it does not return the empty
sentinel, so the resolver is not exception-free on all JSON-compatible
inputs. -/
theorem get_value_counterexample_raises :
    get_value (JVal.obj [("a", JVal.num 5)]) ["a", "b"] =
      Except.error PyErr.typeError := by
  rfl

/-- C3 (amended): the Path Resolver returns the empty-string sentinel when the
chain is empty, when the document (or intermediate value) is falsy, and when
the leading key is absent from a mapping level — in particular, on any
document that is a mapping whose first key is absent it returns the sentinel
without throwing; but when the value at the current level is a truthy number,
the membership test raises `TypeError` instead of short-circuiting. -/
theorem get_value_sentinel_amended :
    (∀ v : JVal, get_value v [] = Except.ok (JVal.str "")) ∧
    (∀ (v : JVal) (chain : List String),
       v.truthy = false → get_value v chain = Except.ok (JVal.str "")) ∧
    (∀ (kvs : List (String × JVal)) (key : String) (rest : List String),
       hasKeyL kvs key = false →
       get_value (JVal.obj kvs) (key :: rest) = Except.ok (JVal.str "")) ∧
    (∀ (q : ℚ) (key : String) (rest : List String),
       q ≠ 0 → get_value (JVal.num q) (key :: rest) =
         Except.error PyErr.typeError) := by
  refine ⟨fun v => rfl, ?_, ?_, ?_⟩
  · intro v chain h
    cases chain with
    | nil => rfl
    | cons key rest => simp [get_value, h]
  · intro kvs key rest h
    by_cases ht : (JVal.obj kvs).truthy
    · simp [get_value, ht, pyContains, h]
    · simp [get_value, ht]
  · intro q key rest h
    have ht : (JVal.num q).truthy = true := by
      simp [JVal.truthy, bne, h]
    simp [get_value, ht, pyContains]

/-- C3 witness: the amended statement at a concrete mapping document whose
first key is absent. -/
theorem get_value_sentinel_amended_witness :
    get_value (JVal.obj [("b", JVal.num 7)]) ["a", "x"] =
      Except.ok (JVal.str "") :=
  get_value_sentinel_amended.2.2.1 [("b", JVal.num 7)] "a" ["x"] (by decide)

/-- Looking a key up after `items[k] = v` yields `v` for `k` and is otherwise
unchanged. -/
theorem lookupKV_setKey (its : Items) (k key : String) (v : JVal) :
    lookupKV (setKey its k v) key =
      if key = k then some v else lookupKV its key := by
  induction its with
  | nil =>
    by_cases h : k = key
    · subst h; simp [setKey, lookupKV]
    · have h2 : ¬ key = k := fun hh => h hh.symm
      simp [setKey, lookupKV, beq_iff_eq, h, h2]
  | cons kv rest ih =>
    obtain ⟨k2, w2⟩ := kv
    by_cases h2 : k2 = k
    · subst h2
      by_cases h3 : key = k2
      · subst h3; simp [setKey, lookupKV]
      · have h4 : ¬ k2 = key := fun hh => h3 hh.symm
        simp [setKey, lookupKV, beq_iff_eq, h3, h4]
    · by_cases h3 : k2 = key
      · subst h3
        simp [setKey, lookupKV, beq_iff_eq, h2]
      · simp [setKey, lookupKV, beq_iff_eq, h2, h3, ih]

/-- A key is present after `items[k] = v` iff it is `k` or was present. -/
theorem hasKeyI_setKey (its : Items) (k key : String) (v : JVal) :
    hasKeyI (setKey its k v) key = (key == k || hasKeyI its key) := by
  induction its with
  | nil => simp [setKey, hasKeyI, BEq.comm]
  | cons kv rest ih =>
    obtain ⟨k2, w2⟩ := kv
    by_cases h2 : k2 = k
    · subst h2
      simp [setKey, hasKeyI, BEq.comm]
    · simp only [setKey, hasKeyI, beq_iff_eq, h2, if_false, ih]
      exact (Bool.or_left_comm _ _ _).symm

/-- `pyEq` on two numbers is numeric equality. -/
theorem pyEq_num_num (a b : ℚ) : pyEq (JVal.num a) (JVal.num b) = (a == b) :=
  rfl

/-- `pyEq` between a number and a string is false. -/
theorem pyEq_num_str (a : ℚ) (s : String) :
    pyEq (JVal.num a) (JVal.str s) = false := rfl

/-- `pyEq` between a number and `None` is false. -/
theorem pyEq_num_null (a : ℚ) : pyEq (JVal.num a) JVal.null = false := rfl

/-- `pyEq` on two strings is string equality. -/
theorem pyEq_str_str (s t : String) :
    pyEq (JVal.str s) (JVal.str t) = (s == t) := rfl

/-- `get_value` on a mapping whose first key is absent yields the sentinel. -/
theorem gv_obj_absent (kvs : List (String × JVal)) (key : String)
    (rest : List String) (h : hasKeyL kvs key = false) :
    get_value (JVal.obj kvs) (key :: rest) = Except.ok (JVal.str "") := by
  by_cases ht : (JVal.obj kvs).truthy <;> simp [get_value, ht, pyContains, h]

/-- On well-shaped rows the nutrition row loop never raises. -/
theorem nutriRows_wellformed (rows : List JVal) :
    ∀ acc : Items, (∀ r ∈ rows, rowOK r = true) →
      ∃ m, nutriRows rows acc = Except.ok m := by
  induction rows with
  | nil => intro acc _; exact ⟨acc, rfl⟩
  | cons row rest ih =>
    intro acc h
    have hrow : rowOK row = true := h row (List.mem_cons_self _ _)
    have hrest : ∀ r ∈ rest, rowOK r = true :=
      fun r hr => h r (List.mem_cons_of_mem _ hr)
    cases row with
    | obj rkvs =>
      have hcells : cellsOK ((lookupKV rkvs "cells").getD (JVal.arr [])) = true := by
        simp only [rowOK, Bool.and_eq_true] at hrow
        exact hrow.2
      have hlab :
          (match (lookupKV rkvs "rowLabel").getD JVal.null with
           | JVal.arr _ => false
           | JVal.obj _ => false
           | _ => true) = true := by
        simp only [rowOK, Bool.and_eq_true] at hrow
        exact hrow.1
      cases hl : (lookupKV rkvs "rowLabel").getD JVal.null with
      | arr xs => rw [hl] at hlab; simp at hlab
      | obj os => rw [hl] at hlab; simp at hlab
      | str s =>
        simp only [nutriRows, pyGetD, hl]
        cases hls : lookupStr nutriFields s with
        | none => exact ih acc hrest
        | some key =>
          cases hc : (lookupKV rkvs "cells").getD (JVal.arr []) with
          | arr xs =>
            cases xs with
            | nil => simp [JVal.truthy]; exact ih acc hrest
            | cons x xs2 =>
              simp only [JVal.truthy, List.isEmpty_cons, Bool.not_false,
                if_true, pyFirst]
              cases x <;> first
                | exact ih acc hrest
                | exact ih _ hrest
          | null => simp [JVal.truthy]; exact ih acc hrest
          | bool b =>
            rw [hc] at hcells
            cases b with
            | false => simp [JVal.truthy]; exact ih acc hrest
            | true => simp [cellsOK, JVal.truthy] at hcells
          | num q =>
            rw [hc] at hcells
            simp only [cellsOK, JVal.truthy] at hcells
            have : q = 0 := by
              by_contra hq
              simp [bne, hq] at hcells
            subst this
            simp [JVal.truthy]; exact ih acc hrest
          | str s2 =>
            rw [hc] at hcells
            simp only [cellsOK, JVal.truthy] at hcells
            have : s2 = "" := by
              by_contra hs
              simp [bne, hs] at hcells
            subst this
            simp [JVal.truthy]; exact ih acc hrest
          | obj os =>
            rw [hc] at hcells
            simp only [cellsOK, JVal.truthy] at hcells
            have : os = [] := by
              cases os with
              | nil => rfl
              | cons a b => simp at hcells
            subst this
            simp [JVal.truthy]; exact ih acc hrest
      | null => simp only [nutriRows, pyGetD, hl]; exact ih acc hrest
      | bool b => simp only [nutriRows, pyGetD, hl]; exact ih acc hrest
      | num q => simp only [nutriRows, pyGetD, hl]; exact ih acc hrest
    | null => simp [rowOK] at hrow
    | bool b => simp [rowOK] at hrow
    | num q => simp [rowOK] at hrow
    | str s => simp [rowOK] at hrow
    | arr xs => simp [rowOK] at hrow

/-- C10, counterexample: the dict `{"rows": 5}` is a dict input, yet the
nutrition extractor does not return a mapping — iterating the non-iterable
`rows` value raises `TypeError`, so "for every dict input it returns a
(possibly empty) mapping" fails. -/
theorem nutrition_counterexample_raises :
    handle_nutrition (JVal.obj [("rows", JVal.num 5)]) =
      Except.error PyErr.typeError := rfl

/-- C10 (amended): the nutrition extractor returns `None` exactly for
non-dict raw values — whenever it returns normally on a dict the result is a
(possibly empty) mapping, so an empty table is distinguishable from a
missing or malformed one — but on a dict whose rows are malformed (a
non-iterable `rows` value, non-dict rows, unhashable labels, or truthy
non-list cells) it raises instead of returning; on dicts whose rows are
well shaped it always returns the mapping. -/
theorem nutrition_dict_amended :
    (∀ v : JVal, isDictB v = false → handle_nutrition v = Except.ok JVal.null) ∧
    (∀ (kvs : List (String × JVal)) (w : JVal),
       handle_nutrition (JVal.obj kvs) = Except.ok w →
       ∃ m, w = JVal.obj m) ∧
    (∀ (kvs : List (String × JVal)) (rows : List JVal),
       (lookupKV kvs "rows").getD (JVal.arr []) = JVal.arr rows →
       (∀ r ∈ rows, rowOK r = true) →
       ∃ m, handle_nutrition (JVal.obj kvs) = Except.ok (JVal.obj m)) := by
  refine ⟨?_, ?_, ?_⟩
  · intro v h
    cases v <;> simp_all [handle_nutrition, isDictB]
  · intro kvs w h
    simp only [handle_nutrition] at h
    cases hit : pyIter ((lookupKV kvs "rows").getD (JVal.arr [])) with
    | error e => simp [hit] at h
    | ok rows =>
      simp only [hit] at h
      cases hnr : nutriRows rows [] with
      | error e => simp [hnr] at h
      | ok m =>
        simp only [hnr, Except.ok.injEq] at h
        exact ⟨m, h.symm⟩
  · intro kvs rows hrows hOK
    obtain ⟨m, hm⟩ := nutriRows_wellformed rows [] hOK
    exact ⟨m, by simp [handle_nutrition, hrows, pyIter, hm]⟩

/-- C10 witness: the amended statement at a concrete dict with one
well-shaped protein row. -/
theorem nutrition_dict_amended_witness :
    ∃ m,
      handle_nutrition
        (JVal.obj
          [("rows",
            JVal.arr
              [JVal.obj
                [("rowLabel", JVal.str "Proteínas"),
                 ("cells",
                  JVal.arr
                    [JVal.obj
                      [("value", JVal.num 5),
                       ("unitOfMeasure", JVal.str "g")]])]])]) =
        Except.ok (JVal.obj m) :=
  nutrition_dict_amended.2.2
    [("rows",
      JVal.arr
        [JVal.obj
          [("rowLabel", JVal.str "Proteínas"),
           ("cells",
            JVal.arr
              [JVal.obj
                [("value", JVal.num 5), ("unitOfMeasure", JVal.str "g")]])]])]
    [JVal.obj
      [("rowLabel", JVal.str "Proteínas"),
       ("cells",
        JVal.arr
          [JVal.obj [("value", JVal.num 5), ("unitOfMeasure", JVal.str "g")]])]]
    (by rfl) (by decide)

/-- C6: when the raw offer price equals the already-set shelf price
(Python `==`), the Promotion Evaluator leaves `percentPromotion` and
`unitPriceWithOffer` as `None` and returns `None` exactly when neither the
promotion-labels value nor the levels value is truthy; when either is
present it returns the raw value as-is, still without computing the two
derived fields. -/
theorem offer_price_equal_shelf :
    ∀ (val : JVal) (items : Items) (result : JVal) (pl lv : JVal),
      pyEq val (getKeyD items "price" JVal.null) = true →
      get_value result promoPath = Except.ok pl →
      get_value result levelsPath = Except.ok lv →
      handle_offer_price val items result =
        Except.ok
          (if !pl.truthy && !lv.truthy then JVal.null else val,
           setKey (setKey items "unitPriceWithOffer" JVal.null)
             "percentPromotion" JVal.null) := by
  intro val items result pl lv hpy hpl hlv
  have hprice :
      getKeyD
        (setKey (setKey items "unitPriceWithOffer" JVal.null)
          "percentPromotion" JVal.null) "price" JVal.null =
        getKeyD items "price" JVal.null := by
    simp [getKeyD, lookupKV_setKey]
  simp only [handle_offer_price, hprice, hpy, if_true, hpl, hlv]
  cases hb : (!pl.truthy && !lv.truthy) <;> simp [hb]

/-- C6 witness: equal offer and shelf price with no promotion labels or
levels in the document discards the offer price. -/
theorem offer_price_equal_shelf_witness :
    handle_offer_price (JVal.num 2) [("price", JVal.num 2)]
      (JVal.obj [("z", JVal.num 1)]) =
    Except.ok
      (if !(JVal.str "").truthy && !(JVal.str "").truthy then JVal.null
       else JVal.num 2,
       setKey (setKey [("price", JVal.num 2)] "unitPriceWithOffer" JVal.null)
         "percentPromotion" JVal.null) :=
  offer_price_equal_shelf (JVal.num 2) [("price", JVal.num 2)]
    (JVal.obj [("z", JVal.num 1)]) (JVal.str "") (JVal.str "")
    (by rfl) (by rfl) (by rfl)

/-- `setKey` under a different key leaves a lookup unchanged. -/
theorem lookupKV_setKey_ne (its : Items) (k key : String) (v : JVal)
    (h : key ≠ k) : lookupKV (setKey its k v) key = lookupKV its key := by
  simp [lookupKV_setKey, h]

/-- The percent-promotion computation on a numeric offer and a numeric
non-zero shelf price. -/
theorem percentCompute_num (v s : ℚ) (its : Items)
    (hp : lookupKV its "price" = some (JVal.num s)) (hs : s ≠ 0) :
    percentCompute (JVal.num v) its =
      Except.ok (JVal.num (round2 (1 - v / s))) := by
  simp [percentCompute, getKeyD, hp, toNumQ, hs]

/-- The offer-unit-price computation defaults the unit count to 1 when the
record's measuring unit is absent or falsy. -/
theorem upwoCompute_noMU (v : ℚ) (its : Items)
    (hmu : (getKeyD its "measuringUnit" (JVal.obj [])).truthy = false) :
    upwoCompute (JVal.num v) its = Except.ok (JVal.num (round2 (v / 1))) := by
  simp [upwoCompute, hmu, toNumQ]

/-- The offer-unit-price computation with a truthy measuring-unit dict and
numeric value and units. -/
theorem upwoCompute_mu (v m u : ℚ) (its : Items)
    (mus : List (String × JVal))
    (hmu : lookupKV its "measuringUnit" = some (JVal.obj mus))
    (ht : (JVal.obj mus).truthy = true)
    (hmv : lookupKV mus "value" = some (JVal.num m))
    (hu : lookupKV its "units" = some (JVal.num u)) :
    upwoCompute (JVal.num v) its =
      if m * u = 0 then Except.error PyErr.zeroDivisionError
      else Except.ok (JVal.num (round2 (v / (m * u)))) := by
  simp [upwoCompute, getKeyD, hmu, ht, pyGetD, hmv, pyFloatJ, hu, pyMulFloat,
    toNumQ]

/-- C5: when the raw offer price differs from the record's numeric shelf
price, the Promotion Evaluator stores
`percentPromotion = round(1 - offerPrice/shelfPrice, 2)` (left absent on a
zero shelf price or a non-numeric shelf price), stores
`unitPriceWithOffer = round(offerPrice / (measuringUnit.value * units), 2)`
with the unit count defaulting to 1 when the measuring unit is absent (left
absent on a zero unit count), and returns the offer price value for storage;
in particular shelfPrice=2.00, offerPrice=1.50 gives percentPromotion=0.25. -/
theorem offer_price_differs :
    (∀ (v s : ℚ) (items : Items) (result : JVal),
       lookupKV items "price" = some (JVal.num s) → v ≠ s → s ≠ 0 →
       lookupKV items "measuringUnit" = none →
       handle_offer_price (JVal.num v) items result =
         Except.ok (JVal.num v,
           setKey
             (setKey
               (setKey (setKey items "unitPriceWithOffer" JVal.null)
                 "percentPromotion" JVal.null)
               "percentPromotion" (JVal.num (round2 (1 - v / s))))
             "unitPriceWithOffer" (JVal.num (round2 (v / 1))))) ∧
    (∀ (v s m u : ℚ) (items : Items) (result : JVal)
       (mus : List (String × JVal)),
       lookupKV items "price" = some (JVal.num s) → v ≠ s → s ≠ 0 →
       lookupKV items "measuringUnit" = some (JVal.obj mus) →
       (JVal.obj mus).truthy = true →
       lookupKV mus "value" = some (JVal.num m) →
       lookupKV items "units" = some (JVal.num u) → m * u ≠ 0 →
       handle_offer_price (JVal.num v) items result =
         Except.ok (JVal.num v,
           setKey
             (setKey
               (setKey (setKey items "unitPriceWithOffer" JVal.null)
                 "percentPromotion" JVal.null)
               "percentPromotion" (JVal.num (round2 (1 - v / s))))
             "unitPriceWithOffer" (JVal.num (round2 (v / (m * u)))))) ∧
    (∀ (v : ℚ) (items : Items) (result : JVal),
       lookupKV items "price" = some (JVal.num 0) → v ≠ 0 →
       lookupKV items "measuringUnit" = none →
       handle_offer_price (JVal.num v) items result =
         Except.ok (JVal.num v,
           setKey
             (setKey (setKey items "unitPriceWithOffer" JVal.null)
               "percentPromotion" JVal.null)
             "unitPriceWithOffer" (JVal.num (round2 (v / 1))))) ∧
    (∀ (v : ℚ) (t : String) (items : Items) (result : JVal),
       lookupKV items "price" = some (JVal.str t) →
       lookupKV items "measuringUnit" = none →
       handle_offer_price (JVal.num v) items result =
         Except.ok (JVal.num v,
           setKey
             (setKey (setKey items "unitPriceWithOffer" JVal.null)
               "percentPromotion" JVal.null)
             "unitPriceWithOffer" (JVal.num (round2 (v / 1))))) ∧
    (∀ (v s m u : ℚ) (items : Items) (result : JVal)
       (mus : List (String × JVal)),
       lookupKV items "price" = some (JVal.num s) → v ≠ s → s ≠ 0 →
       lookupKV items "measuringUnit" = some (JVal.obj mus) →
       (JVal.obj mus).truthy = true →
       lookupKV mus "value" = some (JVal.num m) →
       lookupKV items "units" = some (JVal.num u) → m * u = 0 →
       handle_offer_price (JVal.num v) items result =
         Except.ok (JVal.num v,
           setKey
             (setKey (setKey items "unitPriceWithOffer" JVal.null)
               "percentPromotion" JVal.null)
             "percentPromotion" (JVal.num (round2 (1 - v / s))))) ∧
    handle_offer_price (JVal.num (3 / 2))
        [("price", JVal.num 2), ("units", JVal.num 1)] (JVal.obj []) =
      Except.ok (JVal.num (3 / 2),
        [("price", JVal.num 2), ("units", JVal.num 1),
         ("unitPriceWithOffer", JVal.num (3 / 2)),
         ("percentPromotion", JVal.num (1 / 4))]) := by
  refine ⟨?_, ?_, ?_, ?_, ?_, by rfl⟩
  · intro v s items result hp hv hs hmu
    have hp0 :
        lookupKV
          (setKey (setKey items "unitPriceWithOffer" JVal.null)
            "percentPromotion" JVal.null) "price" = some (JVal.num s) := by
      rw [lookupKV_setKey_ne _ _ _ _ (by decide),
        lookupKV_setKey_ne _ _ _ _ (by decide), hp]
    have hcond :
        pyEq (JVal.num v)
          (getKeyD
            (setKey (setKey items "unitPriceWithOffer" JVal.null)
              "percentPromotion" JVal.null) "price" JVal.null) = false := by
      simp only [getKeyD, hp0, Option.getD_some, pyEq_num_num]
      exact beq_eq_false_iff_ne.mpr hv
    have hperc := percentCompute_num v s _ hp0 hs
    have hmu0 :
        lookupKV
          (setKey
            (setKey (setKey items "unitPriceWithOffer" JVal.null)
              "percentPromotion" JVal.null)
            "percentPromotion" (JVal.num (round2 (1 - v / s))))
          "measuringUnit" = none := by
      rw [lookupKV_setKey_ne _ _ _ _ (by decide),
        lookupKV_setKey_ne _ _ _ _ (by decide),
        lookupKV_setKey_ne _ _ _ _ (by decide), hmu]
    have hmu1 :
        (getKeyD
          (setKey
            (setKey (setKey items "unitPriceWithOffer" JVal.null)
              "percentPromotion" JVal.null)
            "percentPromotion" (JVal.num (round2 (1 - v / s))))
          "measuringUnit" (JVal.obj [])).truthy = false := by
      simp [getKeyD, hmu0, JVal.truthy]
    have hupwo := upwoCompute_noMU v _ hmu1
    simp [handle_offer_price, tryPercent, tryUpwo, hcond, hperc, hupwo]
  · intro v s m u items result mus hp hv hs hmu ht hmv hu hmuu
    have hp0 :
        lookupKV
          (setKey (setKey items "unitPriceWithOffer" JVal.null)
            "percentPromotion" JVal.null) "price" = some (JVal.num s) := by
      rw [lookupKV_setKey_ne _ _ _ _ (by decide),
        lookupKV_setKey_ne _ _ _ _ (by decide), hp]
    have hcond :
        pyEq (JVal.num v)
          (getKeyD
            (setKey (setKey items "unitPriceWithOffer" JVal.null)
              "percentPromotion" JVal.null) "price" JVal.null) = false := by
      simp only [getKeyD, hp0, Option.getD_some, pyEq_num_num]
      exact beq_eq_false_iff_ne.mpr hv
    have hperc := percentCompute_num v s _ hp0 hs
    have hmu1 :
        lookupKV
          (setKey
            (setKey (setKey items "unitPriceWithOffer" JVal.null)
              "percentPromotion" JVal.null)
            "percentPromotion" (JVal.num (round2 (1 - v / s))))
          "measuringUnit" = some (JVal.obj mus) := by
      rw [lookupKV_setKey_ne _ _ _ _ (by decide),
        lookupKV_setKey_ne _ _ _ _ (by decide),
        lookupKV_setKey_ne _ _ _ _ (by decide), hmu]
    have hu1 :
        lookupKV
          (setKey
            (setKey (setKey items "unitPriceWithOffer" JVal.null)
              "percentPromotion" JVal.null)
            "percentPromotion" (JVal.num (round2 (1 - v / s))))
          "units" = some (JVal.num u) := by
      rw [lookupKV_setKey_ne _ _ _ _ (by decide),
        lookupKV_setKey_ne _ _ _ _ (by decide),
        lookupKV_setKey_ne _ _ _ _ (by decide), hu]
    have hupwo := upwoCompute_mu v m u _ mus hmu1 ht hmv hu1
    rw [if_neg hmuu] at hupwo
    simp [handle_offer_price, tryPercent, tryUpwo, hcond, hperc, hupwo]
  · intro v items result hp hv hmu
    have hp0 :
        lookupKV
          (setKey (setKey items "unitPriceWithOffer" JVal.null)
            "percentPromotion" JVal.null) "price" = some (JVal.num 0) := by
      rw [lookupKV_setKey_ne _ _ _ _ (by decide),
        lookupKV_setKey_ne _ _ _ _ (by decide), hp]
    have hcond :
        pyEq (JVal.num v)
          (getKeyD
            (setKey (setKey items "unitPriceWithOffer" JVal.null)
              "percentPromotion" JVal.null) "price" JVal.null) = false := by
      simp only [getKeyD, hp0, Option.getD_some, pyEq_num_num]
      exact beq_eq_false_iff_ne.mpr hv
    have hperc :
        percentCompute (JVal.num v)
          (setKey (setKey items "unitPriceWithOffer" JVal.null)
            "percentPromotion" JVal.null) =
          Except.error PyErr.zeroDivisionError := by
      simp [percentCompute, getKeyD, hp0, toNumQ]
    have hmu0 :
        lookupKV
          (setKey (setKey items "unitPriceWithOffer" JVal.null)
            "percentPromotion" JVal.null) "measuringUnit" = none := by
      rw [lookupKV_setKey_ne _ _ _ _ (by decide),
        lookupKV_setKey_ne _ _ _ _ (by decide), hmu]
    have hmu1 :
        (getKeyD
          (setKey (setKey items "unitPriceWithOffer" JVal.null)
            "percentPromotion" JVal.null) "measuringUnit"
          (JVal.obj [])).truthy = false := by
      simp [getKeyD, hmu0, JVal.truthy]
    have hupwo := upwoCompute_noMU v _ hmu1
    simp [handle_offer_price, tryPercent, tryUpwo, hcond, hperc, hupwo, catchZT]
  · intro v t items result hp hmu
    have hp0 :
        lookupKV
          (setKey (setKey items "unitPriceWithOffer" JVal.null)
            "percentPromotion" JVal.null) "price" = some (JVal.str t) := by
      rw [lookupKV_setKey_ne _ _ _ _ (by decide),
        lookupKV_setKey_ne _ _ _ _ (by decide), hp]
    have hcond :
        pyEq (JVal.num v)
          (getKeyD
            (setKey (setKey items "unitPriceWithOffer" JVal.null)
              "percentPromotion" JVal.null) "price" JVal.null) = false := by
      simp only [getKeyD, hp0, Option.getD_some, pyEq_num_str]
    have hperc :
        percentCompute (JVal.num v)
          (setKey (setKey items "unitPriceWithOffer" JVal.null)
            "percentPromotion" JVal.null) =
          Except.error PyErr.typeError := by
      simp [percentCompute, getKeyD, hp0, toNumQ]
    have hmu0 :
        lookupKV
          (setKey (setKey items "unitPriceWithOffer" JVal.null)
            "percentPromotion" JVal.null) "measuringUnit" = none := by
      rw [lookupKV_setKey_ne _ _ _ _ (by decide),
        lookupKV_setKey_ne _ _ _ _ (by decide), hmu]
    have hmu1 :
        (getKeyD
          (setKey (setKey items "unitPriceWithOffer" JVal.null)
            "percentPromotion" JVal.null) "measuringUnit"
          (JVal.obj [])).truthy = false := by
      simp [getKeyD, hmu0, JVal.truthy]
    have hupwo := upwoCompute_noMU v _ hmu1
    simp [handle_offer_price, tryPercent, tryUpwo, hcond, hperc, hupwo, catchZT]
  · intro v s m u items result mus hp hv hs hmu ht hmv hu hmuu
    have hp0 :
        lookupKV
          (setKey (setKey items "unitPriceWithOffer" JVal.null)
            "percentPromotion" JVal.null) "price" = some (JVal.num s) := by
      rw [lookupKV_setKey_ne _ _ _ _ (by decide),
        lookupKV_setKey_ne _ _ _ _ (by decide), hp]
    have hcond :
        pyEq (JVal.num v)
          (getKeyD
            (setKey (setKey items "unitPriceWithOffer" JVal.null)
              "percentPromotion" JVal.null) "price" JVal.null) = false := by
      simp only [getKeyD, hp0, Option.getD_some, pyEq_num_num]
      exact beq_eq_false_iff_ne.mpr hv
    have hperc := percentCompute_num v s _ hp0 hs
    have hmu1 :
        lookupKV
          (setKey
            (setKey (setKey items "unitPriceWithOffer" JVal.null)
              "percentPromotion" JVal.null)
            "percentPromotion" (JVal.num (round2 (1 - v / s))))
          "measuringUnit" = some (JVal.obj mus) := by
      rw [lookupKV_setKey_ne _ _ _ _ (by decide),
        lookupKV_setKey_ne _ _ _ _ (by decide),
        lookupKV_setKey_ne _ _ _ _ (by decide), hmu]
    have hu1 :
        lookupKV
          (setKey
            (setKey (setKey items "unitPriceWithOffer" JVal.null)
              "percentPromotion" JVal.null)
            "percentPromotion" (JVal.num (round2 (1 - v / s))))
          "units" = some (JVal.num u) := by
      rw [lookupKV_setKey_ne _ _ _ _ (by decide),
        lookupKV_setKey_ne _ _ _ _ (by decide),
        lookupKV_setKey_ne _ _ _ _ (by decide), hu]
    have hupwo := upwoCompute_mu v m u _ mus hmu1 ht hmv hu1
    rw [if_pos hmuu] at hupwo
    simp [handle_offer_price, tryPercent, tryUpwo, hcond, hperc, hupwo, catchZT]

/-- C5 witness: offer price 1.50 against shelf price 2.00 with no measuring
unit on the record. -/
theorem offer_price_differs_witness :
    handle_offer_price (JVal.num (3 / 2))
        [("price", JVal.num 2), ("units", JVal.num 1)] (JVal.obj []) =
      Except.ok (JVal.num (3 / 2),
        setKey
          (setKey
            (setKey
              (setKey [("price", JVal.num 2), ("units", JVal.num 1)]
                "unitPriceWithOffer" JVal.null)
              "percentPromotion" JVal.null)
            "percentPromotion" (JVal.num (round2 (1 - 3 / 2 / 2))))
          "unitPriceWithOffer" (JVal.num (round2 (3 / 2 / 1)))) :=
  offer_price_differs.1 (3 / 2) 2
    [("price", JVal.num 2), ("units", JVal.num 1)] (JVal.obj [])
    (by rfl) (by decide) (by decide) (by rfl)

/-- C7: the Measurement Normalizer first replaces its `{value, uom}` argument
with the document's net-content-volume value whenever that field resolves to
a truthy value, and then converts: GRAM → unit "KG" with value raw/1000
(0 when the value is absent), ML → "L" with value raw/1000, KG and L pass
through with `value or 0`, and an unknown unit passes through as
`unit or ""` with `value or 0`; in particular GRAM 2500 → {KG, 2.5},
ML 500 → {L, 0.5} and KG 3 → {KG, 3}. -/
theorem parser_measuring_conversions :
    (∀ (vd ov R : JVal),
       get_value R ncvPath = Except.ok ov → ov.truthy = true →
       parser_measuring vd R = parser_measuring ov R) ∧
    (∀ (R : JVal) (q : ℚ),
       get_value R fmtPath = Except.ok (JVal.str "") →
       get_value R ncvPath = Except.ok (JVal.str "") →
       parser_measuring
           (JVal.obj [("value", JVal.num q), ("uom", JVal.str "GRAM")]) R =
         Except.ok
           (measureOut (JVal.str "") (JVal.num (q / 1000)) (JVal.str "KG"))) ∧
    (∀ R : JVal,
       get_value R fmtPath = Except.ok (JVal.str "") →
       get_value R ncvPath = Except.ok (JVal.str "") →
       parser_measuring (JVal.obj [("uom", JVal.str "GRAM")]) R =
         Except.ok (measureOut (JVal.str "") (JVal.num 0) (JVal.str "KG"))) ∧
    (∀ (R : JVal) (q : ℚ),
       get_value R fmtPath = Except.ok (JVal.str "") →
       get_value R ncvPath = Except.ok (JVal.str "") →
       parser_measuring
           (JVal.obj [("value", JVal.num q), ("uom", JVal.str "ML")]) R =
         Except.ok
           (measureOut (JVal.str "") (JVal.num (q / 1000)) (JVal.str "L"))) ∧
    (∀ (R : JVal) (q : ℚ) (u : String),
       get_value R fmtPath = Except.ok (JVal.str "") →
       get_value R ncvPath = Except.ok (JVal.str "") →
       u = "KG" ∨ u = "L" →
       parser_measuring
           (JVal.obj [("value", JVal.num q), ("uom", JVal.str u)]) R =
         Except.ok (measureOut (JVal.str "") (JVal.num q) (JVal.str u))) ∧
    (∀ (R : JVal) (q : ℚ) (s : String),
       get_value R fmtPath = Except.ok (JVal.str "") →
       get_value R ncvPath = Except.ok (JVal.str "") →
       s ≠ "GRAM" → s ≠ "ML" → s ≠ "KG" → s ≠ "L" →
       parser_measuring
           (JVal.obj [("value", JVal.num q), ("uom", JVal.str s)]) R =
         Except.ok (measureOut (JVal.str "") (JVal.num q) (JVal.str s))) ∧
    (parser_measuring
         (JVal.obj [("value", JVal.num 2500), ("uom", JVal.str "GRAM")])
         (JVal.obj []) =
       Except.ok
         (JVal.obj
           [("format", JVal.str ""), ("value", JVal.num (5 / 2)),
            ("unit", JVal.str "KG")]) ∧
     parser_measuring
         (JVal.obj [("value", JVal.num 500), ("uom", JVal.str "ML")])
         (JVal.obj []) =
       Except.ok
         (JVal.obj
           [("format", JVal.str ""), ("value", JVal.num (1 / 2)),
            ("unit", JVal.str "L")]) ∧
     parser_measuring
         (JVal.obj [("value", JVal.num 3), ("uom", JVal.str "KG")])
         (JVal.obj []) =
       Except.ok
         (JVal.obj
           [("format", JVal.str ""), ("value", JVal.num 3),
            ("unit", JVal.str "KG")])) := by
  refine ⟨?_, ?_, ?_, ?_, ?_, ?_, by rfl, by rfl, by rfl⟩
  · intro vd ov R hov hovt
    simp only [parser_measuring, hov, hovt, if_true]
  · intro R q hf hn
    by_cases hq : q = 0 <;>
      simp [parser_measuring, hf, hn, pyGetD, lookupKV, JVal.truthy,
        pyEq_str_str, div1000, measureOut, hq, bne]
  · intro R hf hn
    simp [parser_measuring, hf, hn, pyGetD, lookupKV, JVal.truthy,
      pyEq_str_str, div1000, measureOut]
  · intro R q hf hn
    by_cases hq : q = 0 <;>
      simp [parser_measuring, hf, hn, pyGetD, lookupKV, JVal.truthy,
        pyEq_str_str, div1000, measureOut, hq, bne]
  · intro R q u hf hn hu
    rcases hu with rfl | rfl <;> by_cases hq : q = 0 <;>
      simp [parser_measuring, hf, hn, pyGetD, lookupKV, JVal.truthy,
        pyEq_str_str, div1000, measureOut, hq, bne]
  · intro R q s hf hn h1 h2 h3 h4
    by_cases hq : q = 0 <;> by_cases hs : s = "" <;>
      simp [parser_measuring, hf, hn, pyGetD, lookupKV, JVal.truthy,
        pyEq_str_str, div1000, measureOut, hq, hs, h1, h2, h3, h4, bne]

/-- C7 witness: the GRAM conversion applied on the empty document. -/
theorem parser_measuring_conversions_witness :
    parser_measuring
        (JVal.obj [("value", JVal.num 2500), ("uom", JVal.str "GRAM")])
        (JVal.obj []) =
      Except.ok
        (measureOut (JVal.str "") (JVal.num (2500 / 1000))
          (JVal.str "KG")) :=
  parser_measuring_conversions.2.1 (JVal.obj []) 2500 (by rfl) (by rfl)

/-- The kgGross fallback computation on a fully numeric record state. -/
theorem kgGrossCompute_num (m u p : ℚ) (d : String) (its : Items)
    (mus : List (String × JVal))
    (hmu : lookupKV its "measuringUnit" = some (JVal.obj mus))
    (ht : (JVal.obj mus).truthy = true)
    (hmv : lookupKV mus "value" = some (JVal.num m))
    (hu : lookupKV its "units" = some (JVal.num u))
    (hp : lookupKV its "priceWithTax" = some (JVal.num p))
    (hd : lookupKV its "denomination" = some (JVal.str d))
    (hnz : extract_grams d * (m * u) ≠ 0) :
    kgGrossCompute its =
      Except.ok
        (JVal.num (round2 (p * 1000 / (extract_grams d * (m * u))))) := by
  simp [kgGrossCompute, getKeyD, hmu, ht, pyGetD, hmv, pyFloatJ, hu,
    pyMulFloat, hp, extractGramsJ, hd, pyMul1000, toNumQ, hnz]

/-- The kgGross fallback computation defaults both the measuring-unit value
and the units to 1 when the measuring unit is falsy and the units key is
absent. -/
theorem kgGrossCompute_defaults (p : ℚ) (d : String) (its : Items)
    (hmu : (getKeyD its "measuringUnit" JVal.null).truthy = false)
    (hu : lookupKV its "units" = none)
    (hp : lookupKV its "priceWithTax" = some (JVal.num p))
    (hd : lookupKV its "denomination" = some (JVal.str d))
    (hnz : extract_grams d ≠ 0) :
    kgGrossCompute its =
      Except.ok (JVal.num (round2 (p * 1000 / extract_grams d))) := by
  simp only [getKeyD] at hmu
  simp [kgGrossCompute, getKeyD, hmu, pyFloatJ, hu, pyMulFloat, hp,
    extractGramsJ, hd, pyMul1000, toNumQ, hnz]

/-- `pyMulFloat` can only raise `TypeError`. -/
theorem pyMulFloat_error (a : JVal) (q : ℚ) (e : PyErr)
    (h : pyMulFloat a q = Except.error e) : e = PyErr.typeError := by
  cases a <;> simp_all [pyMulFloat]

/-- `extractGramsJ` can only raise `TypeError`. -/
theorem extractGramsJ_error (v : JVal) (e : PyErr)
    (h : extractGramsJ v = Except.error e) : e = PyErr.typeError := by
  cases v <;> simp_all [extractGramsJ]

/-- `pyMul1000` can only raise `TypeError`. -/
theorem pyMul1000_error (v : JVal) (e : PyErr)
    (h : pyMul1000 v = Except.error e) : e = PyErr.typeError := by
  cases v with
  | null => exact (Except.error.inj h).symm
  | obj kvs => exact (Except.error.inj h).symm
  | num q => exact Except.noConfusion h
  | bool b => exact Except.noConfusion h
  | str s => exact Except.noConfusion h
  | arr xs => exact Except.noConfusion h

/-- Whenever the kgGross fallback computation returns normally, it returns a
number. -/
theorem kgGrossCompute_ok_shape (its : Items) (v : JVal)
    (h : kgGrossCompute its = Except.ok v) : ∃ q : ℚ, v = JVal.num q := by
  unfold kgGrossCompute at h
  repeat' (first | split at h | dsimp only [] at h)
  all_goals (try exact Except.noConfusion h)
  all_goals exact ⟨_, (Except.ok.inj h).symm⟩

/-- Under a well-formed units entry (absent or numeric) and measuring-unit
entry (falsy or a dict), every exception of the kgGross fallback computation
is one the handler's `except (ZeroDivisionError, TypeError)` clause
catches — in particular no `ValueError` and no `AttributeError` escapes. -/
theorem kgGrossCompute_err_caught (its : Items) (e : PyErr)
    (hunits :
      lookupKV its "units" = none ∨
        ∃ u : ℚ, lookupKV its "units" = some (JVal.num u))
    (hmuOK :
      (getKeyD its "measuringUnit" JVal.null).truthy = false ∨
        ∃ mus, lookupKV its "measuringUnit" = some (JVal.obj mus))
    (h : kgGrossCompute its = Except.error e) : catchZT e = true := by
  have hfl : ∃ u : ℚ,
      pyFloatJ (getKeyD its "units" (JVal.num 1)) = Except.ok u := by
    rcases hunits with hn | ⟨u, hs⟩
    · exact ⟨1, by simp [getKeyD, hn, pyFloatJ]⟩
    · exact ⟨u, by simp [getKeyD, hs, pyFloatJ]⟩
  have hmv : ∃ mv : JVal,
      (if (getKeyD its "measuringUnit" JVal.null).truthy then
        pyGetD (getKeyD its "measuringUnit" JVal.null) "value" (JVal.num 1)
      else Except.ok (JVal.num 1)) = Except.ok mv := by
    rcases hmuOK with hf | ⟨mus, hs⟩
    · exact ⟨JVal.num 1, by simp [hf]⟩
    · by_cases ht : (getKeyD its "measuringUnit" JVal.null).truthy
      · have hobj : getKeyD its "measuringUnit" JVal.null = JVal.obj mus := by
          simp [getKeyD, hs]
        rw [hobj] at ht
        refine ⟨(lookupKV mus "value").getD (JVal.num 1), ?_⟩
        rw [hobj]
        simp [ht, pyGetD]
      · exact ⟨JVal.num 1, by simp [ht]⟩
  obtain ⟨uf, hufl⟩ := hfl
  obtain ⟨mv, hmveq⟩ := hmv
  unfold kgGrossCompute at h
  dsimp only [] at h
  rw [hmveq, hufl] at h
  dsimp only [] at h
  cases hmf : pyMulFloat mv uf with
  | error e2 =>
    rw [hmf] at h; try dsimp only [] at h
    have he := Except.error.inj h
    rw [← he, pyMulFloat_error mv uf e2 hmf]
    rfl
  | ok uc =>
    rw [hmf] at h; try dsimp only [] at h
    cases heg : extractGramsJ (getKeyD its "denomination" JVal.null) with
    | error e2 =>
      rw [heg] at h; try dsimp only [] at h
      have he := Except.error.inj h
      rw [← he, extractGramsJ_error _ e2 heg]
      rfl
    | ok grams =>
      rw [heg] at h; try dsimp only [] at h
      cases hm1000 : pyMul1000 (getKeyD its "priceWithTax" (JVal.num 0)) with
      | error e2 =>
        rw [hm1000] at h; try dsimp only [] at h
        have he := Except.error.inj h
        rw [← he, pyMul1000_error _ e2 hm1000]
        rfl
      | ok numer =>
        rw [hm1000] at h; try dsimp only [] at h
        cases hnq : toNumQ numer with
        | none =>
          rw [hnq] at h; try dsimp only [] at h
          have he := Except.error.inj h
          rw [← he]
          rfl
        | some n =>
          rw [hnq] at h; try dsimp only [] at h
          by_cases hz : grams * uc = 0
          · rw [if_pos hz] at h; try dsimp only [] at h
            have he := Except.error.inj h
            rw [← he]
            rfl
          · rw [if_neg hz] at h; try dsimp only [] at h
            exact Except.noConfusion h

/-- C1: the Unit-Price Reconstructor's three-step cascade.  A non-`None` raw
kgGross value is stored directly as `unitPrice`; for a `None` value a
numeric alternate net price (`basePriceData.pricePerUnit.netPrice`) is
stored directly; otherwise
`unitPrice = round(priceWithTax * 1000 / (gramsPerUnit * unitCount), 2)`
with `gramsPerUnit = extract_grams denomination` and
`unitCount = measuringUnit.value * units`.  The grams parser recognizes the
multi-pack `<qty>x<weight><g|kg>` and single-pack `<weight><g|kg>` patterns
case-insensitively and defaults to 1000; on the spec's concrete instance
(kgGross null, priceWithTax 4.00, units 2, measuringUnit.value 1,
denomination containing "500g") the stored unit price is 4. -/
theorem kg_gross_cascade :
    (∀ (val : JVal) (items : Items) (result : JVal),
       val.isNull = false →
       handle_kg_gross val items result =
         Except.ok (val, setKey items "unitPrice" val, false)) ∧
    (∀ (items : Items) (result alt : JVal),
       get_value result netPricePath = Except.ok alt → isNumB alt = true →
       handle_kg_gross JVal.null items result =
         Except.ok (JVal.null, setKey items "unitPrice" alt, false)) ∧
    (∀ (items : Items) (result alt : JVal) (m u p : ℚ) (d : String)
       (mus : List (String × JVal)),
       get_value result netPricePath = Except.ok alt → isNumB alt = false →
       lookupKV items "measuringUnit" = some (JVal.obj mus) →
       (JVal.obj mus).truthy = true →
       lookupKV mus "value" = some (JVal.num m) →
       lookupKV items "units" = some (JVal.num u) →
       lookupKV items "priceWithTax" = some (JVal.num p) →
       lookupKV items "denomination" = some (JVal.str d) →
       extract_grams d * (m * u) ≠ 0 →
       handle_kg_gross JVal.null items result =
         Except.ok (JVal.null,
           setKey items "unitPrice"
             (JVal.num (round2 (p * 1000 / (extract_grams d * (m * u))))),
           true)) ∧
    (extract_grams "85x20g" = 1700 ∧ extract_grams "85x20kg" = 1700000 ∧
     extract_grams "800G" = 800 ∧ extract_grams "2Kg" = 2000 ∧
     extract_grams "Arroz" = 1000) ∧
    handle_kg_gross JVal.null
        [("denomination", JVal.str "Arroz 500g"), ("units", JVal.num 2),
         ("priceWithTax", JVal.num 4), ("price", JVal.num 4),
         ("measuringUnit",
          JVal.obj
            [("format", JVal.str ""), ("value", JVal.num 1),
             ("unit", JVal.str "KG")])]
        (JVal.obj [("z", JVal.num 1)]) =
      Except.ok (JVal.null,
        [("denomination", JVal.str "Arroz 500g"), ("units", JVal.num 2),
         ("priceWithTax", JVal.num 4), ("price", JVal.num 4),
         ("measuringUnit",
          JVal.obj
            [("format", JVal.str ""), ("value", JVal.num 1),
             ("unit", JVal.str "KG")]),
         ("unitPrice", JVal.num 4)], true) := by
  refine ⟨?_, ?_, ?_, ⟨by rfl, by rfl, by rfl, by rfl, by rfl⟩, by rfl⟩
  · intro val items result hnn
    cases val <;> simp_all [handle_kg_gross, JVal.isNull]
  · intro items result alt halt hnum
    simp [handle_kg_gross, JVal.isNull, halt, hnum]
  · intro items result alt m u p d mus halt hnum hmu ht hmv hu hp hd hnz
    have hc := kgGrossCompute_num m u p d items mus hmu ht hmv hu hp hd hnz
    simp [handle_kg_gross, JVal.isNull, halt, hnum, hc]

/-- C1 witness: the fallback-formula conjunct applied at the spec's concrete
instance. -/
theorem kg_gross_cascade_witness :
    handle_kg_gross JVal.null
        [("denomination", JVal.str "Arroz 500g"), ("units", JVal.num 2),
         ("priceWithTax", JVal.num 4), ("price", JVal.num 4),
         ("measuringUnit",
          JVal.obj
            [("format", JVal.str ""), ("value", JVal.num 1),
             ("unit", JVal.str "KG")])]
        (JVal.obj [("z", JVal.num 1)]) =
      Except.ok (JVal.null,
        setKey
          [("denomination", JVal.str "Arroz 500g"), ("units", JVal.num 2),
           ("priceWithTax", JVal.num 4), ("price", JVal.num 4),
           ("measuringUnit",
            JVal.obj
              [("format", JVal.str ""), ("value", JVal.num 1),
               ("unit", JVal.str "KG")])]
          "unitPrice"
          (JVal.num
            (round2 (4 * 1000 / (extract_grams "Arroz 500g" * (1 * 2))))),
        true) :=
  kg_gross_cascade.2.2.1
    [("denomination", JVal.str "Arroz 500g"), ("units", JVal.num 2),
     ("priceWithTax", JVal.num 4), ("price", JVal.num 4),
     ("measuringUnit",
      JVal.obj
        [("format", JVal.str ""), ("value", JVal.num 1),
         ("unit", JVal.str "KG")])]
    (JVal.obj [("z", JVal.num 1)]) (JVal.str "") 1 2 4 "Arroz 500g"
    [("format", JVal.str ""), ("value", JVal.num 1), ("unit", JVal.str "KG")]
    (by rfl) (by rfl) (by rfl) (by rfl) (by rfl) (by rfl) (by rfl) (by rfl)
    (by decide)

/-- The kgGross fallback computation raises `ZeroDivisionError` when the
denominator `gramsPerUnit * unitCount` is zero. -/
theorem kgGrossCompute_zero (m u p : ℚ) (d : String) (its : Items)
    (mus : List (String × JVal))
    (hmu : lookupKV its "measuringUnit" = some (JVal.obj mus))
    (ht : (JVal.obj mus).truthy = true)
    (hmv : lookupKV mus "value" = some (JVal.num m))
    (hu : lookupKV its "units" = some (JVal.num u))
    (hp : lookupKV its "priceWithTax" = some (JVal.num p))
    (hd : lookupKV its "denomination" = some (JVal.str d))
    (hz : extract_grams d * (m * u) = 0) :
    kgGrossCompute its = Except.error PyErr.zeroDivisionError := by
  simp [kgGrossCompute, getKeyD, hmu, ht, pyGetD, hmv, pyFloatJ, hu,
    pyMulFloat, hp, extractGramsJ, hd, pyMul1000, toNumQ, hz]

/-- The kgGross fallback computation raises `TypeError` on a `None`
price-with-tax (the numerator `None * 1000` is not defined). -/
theorem kgGrossCompute_pwt_null (d : String) (its : Items)
    (hmu : (getKeyD its "measuringUnit" JVal.null).truthy = false)
    (hu : lookupKV its "units" = none)
    (hp : lookupKV its "priceWithTax" = some JVal.null)
    (hd : lookupKV its "denomination" = some (JVal.str d)) :
    kgGrossCompute its = Except.error PyErr.typeError := by
  simp only [getKeyD] at hmu
  simp [kgGrossCompute, getKeyD, hmu, pyFloatJ, hu, pyMulFloat, hp,
    extractGramsJ, hd, pyMul1000, toNumQ]

/-- C2, counterexample: with a units entry holding the unparseable string
"N/A", the fallback computation's `float(items.get("units", 1))` raises
`ValueError`, which the `except (ZeroDivisionError, TypeError)` clause does
not catch — the handler crashes instead of yielding an absent unit price,
so "units defaults to 1 when unparseable" and "the computation never
crashes" both fail. -/
theorem kg_gross_units_valueerror :
    handle_kg_gross JVal.null
        [("denomination", JVal.str "x"), ("units", JVal.str "N/A"),
         ("priceWithTax", JVal.num 4)]
        (JVal.obj [("z", JVal.num 1)]) =
      Except.error PyErr.valueError := rfl

/-- C2 (amended): in the fallback computation, `measuringUnit.value`
defaults to 1 when the measuring unit is absent/falsy and `units` defaults
to 1 when the units key is absent (not when unparseable); whenever the
units entry is absent or numeric and the measuring-unit entry is falsy or a
dict, the computation never crashes: division-by-zero and type errors yield
an absent (`None`) unitPrice, and a successful computation stores a number
— never a crash, and never a zero stored in place of a failed derivation.
A units entry holding a non-numeric string, however, raises an uncaught
`ValueError` (see the counterexample). -/
theorem kg_gross_fallback_amended :
    (∀ (items : Items) (result alt : JVal),
       get_value result netPricePath = Except.ok alt → isNumB alt = false →
       (lookupKV items "units" = none ∨
         ∃ u : ℚ, lookupKV items "units" = some (JVal.num u)) →
       ((getKeyD items "measuringUnit" JVal.null).truthy = false ∨
         ∃ mus, lookupKV items "measuringUnit" = some (JVal.obj mus)) →
       ∃ (w : JVal) (δ : Bool),
         handle_kg_gross JVal.null items result =
           Except.ok (JVal.null, setKey items "unitPrice" w, δ) ∧
         (w = JVal.null ∨ ∃ q : ℚ, w = JVal.num q)) ∧
    (∀ (items : Items) (result alt : JVal) (p : ℚ) (d : String),
       get_value result netPricePath = Except.ok alt → isNumB alt = false →
       (getKeyD items "measuringUnit" JVal.null).truthy = false →
       lookupKV items "units" = none →
       lookupKV items "priceWithTax" = some (JVal.num p) →
       lookupKV items "denomination" = some (JVal.str d) →
       extract_grams d ≠ 0 →
       handle_kg_gross JVal.null items result =
         Except.ok (JVal.null,
           setKey items "unitPrice"
             (JVal.num (round2 (p * 1000 / extract_grams d))), true)) ∧
    (∀ (items : Items) (result alt : JVal) (m u p : ℚ) (d : String)
       (mus : List (String × JVal)),
       get_value result netPricePath = Except.ok alt → isNumB alt = false →
       lookupKV items "measuringUnit" = some (JVal.obj mus) →
       (JVal.obj mus).truthy = true →
       lookupKV mus "value" = some (JVal.num m) →
       lookupKV items "units" = some (JVal.num u) →
       lookupKV items "priceWithTax" = some (JVal.num p) →
       lookupKV items "denomination" = some (JVal.str d) →
       extract_grams d * (m * u) = 0 →
       handle_kg_gross JVal.null items result =
         Except.ok (JVal.null, setKey items "unitPrice" JVal.null, false)) ∧
    (∀ (items : Items) (result alt : JVal) (d : String),
       get_value result netPricePath = Except.ok alt → isNumB alt = false →
       (getKeyD items "measuringUnit" JVal.null).truthy = false →
       lookupKV items "units" = none →
       lookupKV items "priceWithTax" = some JVal.null →
       lookupKV items "denomination" = some (JVal.str d) →
       handle_kg_gross JVal.null items result =
         Except.ok (JVal.null, setKey items "unitPrice" JVal.null, false)) := by
  refine ⟨?_, ?_, ?_, ?_⟩
  · intro items result alt halt hnum hunits hmuOK
    cases hc : kgGrossCompute items with
    | ok v =>
      obtain ⟨q, rfl⟩ := kgGrossCompute_ok_shape items v hc
      exact ⟨JVal.num q, true,
        by simp [handle_kg_gross, JVal.isNull, halt, hnum, hc],
        Or.inr ⟨q, rfl⟩⟩
    | error e =>
      have hcz := kgGrossCompute_err_caught items e hunits hmuOK hc
      exact ⟨JVal.null, false,
        by simp [handle_kg_gross, JVal.isNull, halt, hnum, hc, hcz],
        Or.inl rfl⟩
  · intro items result alt p d halt hnum hmu hu hp hd hnz
    have hc := kgGrossCompute_defaults p d items hmu hu hp hd hnz
    simp [handle_kg_gross, JVal.isNull, halt, hnum, hc]
  · intro items result alt m u p d mus halt hnum hmu ht hmv hu hp hd hz
    have hc := kgGrossCompute_zero m u p d items mus hmu ht hmv hu hp hd hz
    simp [handle_kg_gross, JVal.isNull, halt, hnum, hc, catchZT]
  · intro items result alt d halt hnum hmu hu hp hd
    have hc := kgGrossCompute_pwt_null d items hmu hu hp hd
    simp [handle_kg_gross, JVal.isNull, halt, hnum, hc, catchZT]

/-- C2 witness: the defaults conjunct at a concrete record with no
measuring unit and no units key. -/
theorem kg_gross_fallback_amended_witness :
    handle_kg_gross JVal.null
        [("denomination", JVal.str "500g"), ("priceWithTax", JVal.num 4)]
        (JVal.obj [("z", JVal.num 1)]) =
      Except.ok (JVal.null,
        setKey [("denomination", JVal.str "500g"), ("priceWithTax", JVal.num 4)]
          "unitPrice"
          (JVal.num (round2 (4 * 1000 / extract_grams "500g"))), true) :=
  kg_gross_fallback_amended.2.1
    [("denomination", JVal.str "500g"), ("priceWithTax", JVal.num 4)]
    (JVal.obj [("z", JVal.num 1)]) (JVal.str "") 4 "500g"
    (by rfl) (by rfl) (by rfl) (by rfl) (by rfl) (by rfl) (by decide)

/-- A successful `tryPercent` either keeps the record or sets one key. -/
theorem tryPercent_sets (val : JVal) (its0 its1 : Items)
    (h : tryPercent val its0 = Except.ok its1) :
    its1 = its0 ∨ ∃ p, its1 = setKey its0 "percentPromotion" p := by
  unfold tryPercent at h
  repeat' split at h
  all_goals (try exact Except.noConfusion h)
  · exact Or.inr ⟨_, (Except.ok.inj h).symm⟩
  · exact Or.inl (Except.ok.inj h).symm

/-- A successful `tryUpwo` either keeps the record or sets one key. -/
theorem tryUpwo_sets (val : JVal) (its1 its2 : Items)
    (h : tryUpwo val its1 = Except.ok its2) :
    its2 = its1 ∨ ∃ p, its2 = setKey its1 "unitPriceWithOffer" p := by
  unfold tryUpwo at h
  repeat' split at h
  all_goals (try exact Except.noConfusion h)
  · exact Or.inr ⟨_, (Except.ok.inj h).symm⟩
  · exact Or.inl (Except.ok.inj h).symm

/-- The Promotion Evaluator only adds keys to the record (it writes via
`setKey` only), so key presence is preserved. -/
theorem handle_offer_price_mono (val : JVal) (items : Items) (result : JVal)
    (v : JVal) (its2 : Items)
    (h : handle_offer_price val items result = Except.ok (v, its2))
    (k : String) (hk : hasKeyI items k = true) : hasKeyI its2 k = true := by
  have hk0 :
      hasKeyI
        (setKey (setKey items "unitPriceWithOffer" JVal.null)
          "percentPromotion" JVal.null) k = true := by
    simp [hasKeyI_setKey, hk]
  unfold handle_offer_price at h
  dsimp only [] at h
  split at h
  · repeat' split at h
    all_goals (try exact Except.noConfusion h)
    all_goals (injection Except.ok.inj h with h1 h2; subst h2; exact hk0)
  · cases htp :
        tryPercent val
          (setKey (setKey items "unitPriceWithOffer" JVal.null)
            "percentPromotion" JVal.null) with
    | error e => rw [htp] at h; exact Except.noConfusion h
    | ok items1 =>
      rw [htp] at h
      dsimp only [] at h
      have hk1 : hasKeyI items1 k = true := by
        rcases tryPercent_sets _ _ _ htp with rfl | ⟨p, rfl⟩
        · exact hk0
        · simp [hasKeyI_setKey, hk0]
      cases htu : tryUpwo val items1 with
      | error e => rw [htu] at h; exact Except.noConfusion h
      | ok items2 =>
        rw [htu] at h
        dsimp only [] at h
        injection Except.ok.inj h with h1 h2
        subst h2
        rcases tryUpwo_sets _ _ _ htu with rfl | ⟨p, rfl⟩
        · exact hk1
        · simp [hasKeyI_setKey, hk1]

/-- The Unit-Price Reconstructor updates the record only by setting the
`unitPrice` key. -/
theorem handle_kg_gross_sets (val : JVal) (items : Items) (result : JVal)
    (v : JVal) (its2 : Items) (δ : Bool)
    (h : handle_kg_gross val items result = Except.ok (v, its2, δ)) :
    ∃ w, its2 = setKey items "unitPrice" w := by
  unfold handle_kg_gross at h
  repeat' (first | split at h | dsimp only [] at h)
  all_goals (try exact Except.noConfusion h)
  all_goals
    (injection Except.ok.inj h with h1 h2; injection h2 with h2 h3;
     exact ⟨_, h2.symm⟩)

/-- Every handler dispatched by the Record Assembler preserves key
presence in the record. -/
theorem applyHandler_mono (key : String) (raw : JVal) (items : Items)
    (result : JVal) (v : JVal) (its2 : Items) (δ : Bool)
    (h : applyHandler key raw items result = Except.ok (v, its2, δ))
    (k : String) (hk : hasKeyI items k = true) : hasKeyI its2 k = true := by
  unfold applyHandler at h
  repeat' (first | split at h | dsimp only [] at h)
  all_goals (try exact Except.noConfusion h)
  all_goals try
    (injection Except.ok.inj h with h1 h2; injection h2 with h2 h3;
     subst h2; exact hk)
  · rename_i heq
    injection Except.ok.inj h with h1 h2
    injection h2 with h2 h3
    subst h2
    exact handle_offer_price_mono _ _ _ _ _ heq k hk
  · obtain ⟨w, rfl⟩ := handle_kg_gross_sets _ _ _ _ _ _ h
    simp [hasKeyI_setKey, hk]

/-- One field iteration preserves existing keys and adds its own field key. -/
theorem applyField_keys (result : JVal) (items : Items) (key : String)
    (path : List String) (its2 : Items) (δ : Bool)
    (h : applyField result items key path = Except.ok (its2, δ)) :
    (∀ k, hasKeyI items k = true → hasKeyI its2 k = true) ∧
      hasKeyI its2 key = true := by
  unfold applyField at h
  cases hgv : get_value result path with
  | error e => rw [hgv] at h; exact Except.noConfusion h
  | ok raw =>
    rw [hgv] at h
    dsimp only [] at h
    cases hah : applyHandler key raw items result with
    | error e => rw [hah] at h; exact Except.noConfusion h
    | ok t =>
      obtain ⟨v, imid, d⟩ := t
      rw [hah] at h
      dsimp only [] at h
      injection Except.ok.inj h with h1 h2
      subst h1
      constructor
      · intro k hk
        have hmid := applyHandler_mono key raw items result v imid d hah k hk
        simp [hasKeyI_setKey, hmid]
      · simp [hasKeyI_setKey]

/-- Loop invariant of the Record Assembler: on success, every key already in
the record and every field key in the remaining field list is a key of the
final record. -/
theorem runFieldsAux_keys (fields : List (String × List String)) :
    ∀ (result : JVal) (items : Items) (b : Bool) (rec : Items) (fl : Bool),
      runFieldsAux result fields items b = Except.ok (rec, fl) →
      ∀ k, (hasKeyI items k = true ∨
              (fields.map Prod.fst).contains k = true) →
        hasKeyI rec k = true := by
  induction fields with
  | nil =>
    intro result items b rec fl h k hk
    injection Except.ok.inj h with h1 h2
    subst h1
    rcases hk with hk | hk
    · exact hk
    · simp [List.contains] at hk
  | cons kv rest ih =>
    obtain ⟨key, path⟩ := kv
    intro result items b rec fl h k hk
    unfold runFieldsAux at h
    cases haf : applyField result items key path with
    | error e => rw [haf] at h; exact Except.noConfusion h
    | ok t =>
      obtain ⟨items2, d⟩ := t
      rw [haf] at h
      dsimp only [] at h
      obtain ⟨hmono, hself⟩ := applyField_keys result items key path items2 d haf
      rcases hk with hk | hk
      · exact ih result items2 (b || d) rec fl h k (Or.inl (hmono k hk))
      · by_cases hkey : k = key
        · subst hkey
          exact ih result items2 (b || d) rec fl h k (Or.inl hself)
        · have hrest : ((rest.map Prod.fst).contains k) = true := by
            simp only [List.map_cons, List.contains_cons, Bool.or_eq_true,
              beq_iff_eq] at hk
            rcases hk with hk | hk
            · exact absurd hk hkey
            · exact hk
          exact ih result items2 (b || d) rec fl h k (Or.inr hrest)

/-- C8: whenever the Record Assembler's field loop completes, every field
key of the static field map is present as a key in the assembled record —
a field-map key is never omitted. -/
theorem record_contains_all_field_keys :
    ∀ (result : JVal) (rec : Items) (fl b : Bool),
      runFields result b = Except.ok (rec, fl) →
      ∀ key, (fieldsMap.map Prod.fst).contains key = true →
        hasKeyI rec key = true :=
  fun result rec fl b h key hk =>
    runFieldsAux_keys fieldsMap result [] b rec fl h key (Or.inr hk)

/-- C8 witness: on a document without the variants subtree, the assembled
record contains the field key "promotion" (and the loop succeeds). -/
theorem record_contains_all_field_keys_witness :
    hasKeyI
      [("productIdInSupermarket", JVal.str ""), ("denomination", JVal.str ""),
       ("categoryInSupermarket", JVal.null), ("brand", JVal.str "MAKRO"),
       ("manufacturer", JVal.null), ("description", JVal.str ""),
       ("measuringUnit", JVal.null), ("units", JVal.str ""),
       ("priceWithTax", JVal.str ""), ("price", JVal.str ""),
       ("unitPriceWithOffer", JVal.null), ("percentPromotion", JVal.null),
       ("offerPrice", JVal.null), ("unitPrice", JVal.str ""),
       ("kgGross", JVal.str ""), ("isWeightArticle", JVal.null),
       ("rawIngredients", JVal.null), ("nutritionInformation", JVal.null),
       ("characteristics", JVal.null), ("promotion", JVal.str "")]
      "promotion" = true :=
  record_contains_all_field_keys (JVal.obj [("foo", JVal.num 1)])
    [("productIdInSupermarket", JVal.str ""), ("denomination", JVal.str ""),
     ("categoryInSupermarket", JVal.null), ("brand", JVal.str "MAKRO"),
     ("manufacturer", JVal.null), ("description", JVal.str ""),
     ("measuringUnit", JVal.null), ("units", JVal.str ""),
     ("priceWithTax", JVal.str ""), ("price", JVal.str ""),
     ("unitPriceWithOffer", JVal.null), ("percentPromotion", JVal.null),
     ("offerPrice", JVal.null), ("unitPrice", JVal.str ""),
     ("kgGross", JVal.str ""), ("isWeightArticle", JVal.null),
     ("rawIngredients", JVal.null), ("nutritionInformation", JVal.null),
     ("characteristics", JVal.null), ("promotion", JVal.str "")]
    false false (by rfl) "promotion" (by rfl)

/-- The field loop's record output does not depend on the incoming audit
flag (the flag is written, never read). -/
theorem runFieldsAux_flag_indep (fields : List (String × List String)) :
    ∀ (result : JVal) (items : Items) (b1 b2 : Bool),
      Except.map Prod.fst (runFieldsAux result fields items b1) =
        Except.map Prod.fst (runFieldsAux result fields items b2) := by
  induction fields with
  | nil => intro result items b1 b2; rfl
  | cons kv rest ih =>
    obtain ⟨key, path⟩ := kv
    intro result items b1 b2
    unfold runFieldsAux
    cases h : applyField result items key path with
    | error e => rfl
    | ok t =>
      obtain ⟨items2, d⟩ := t
      exact ih result items2 (b1 || d) (b2 || d)

/-- C9: the field-extraction pass is a pure function of the input document
once the `CALCULATED` audit flag is externalized — records produced from
the same immutable document are identical regardless of the audit flag's
prior state, so running the pass twice yields identical records and no
hidden global state influences the output. -/
theorem assembler_flag_independent :
    ∀ (result : JVal) (b1 b2 : Bool),
      Except.map Prod.fst (runFields result b1) =
        Except.map Prod.fst (runFields result b2) :=
  fun result b1 b2 => runFieldsAux_flag_indep fieldsMap result [] b1 b2

/-- C4, counterexample: on the result document `{"variants": 1}` the very
first field path meets the truthy non-indexable value `1`, the Path
Resolver raises `TypeError`, and the exception aborts record assembly —
it does not degrade only the affected field. -/
theorem assembler_counterexample_aborts :
    runFields (JVal.obj [("variants", JVal.num 1)]) false =
      Except.error PyErr.typeError := rfl

set_option maxHeartbeats 1000000 in
/-- C4 (amended): missing data never aborts assembly — on any result
document in which every `variants`-rooted path and the `brandName` path
resolve to the empty sentinel (in particular any document without those
top-level keys), the per-field loop completes without an exception and
produces the complete fully-defaulted record, every field key present and
each unresolvable field degraded to its default; type/shape mismatches,
however (a truthy non-indexable value on a field path, see the
counterexample), raise an exception that aborts assembly of the record
instead of degrading only the affected field. -/
theorem assembler_missing_data_amended :
    ∀ (R : JVal) (b : Bool),
      (∀ rest, get_value R ("variants" :: rest) = Except.ok (JVal.str "")) →
      get_value R ["brandName"] = Except.ok (JVal.str "") →
      runFields R b = Except.ok (missingRecord, b) := by
  intro R b h1 h2
  have h_meas : handle_measuring_unit (JVal.str "") R = Except.ok JVal.null := by
    unfold handle_measuring_unit
    rw [show get_value R npwPath = Except.ok (JVal.str "") from h1 _]
    rfl
  have h_offer :
      handle_offer_price (JVal.str "")
        [("productIdInSupermarket", JVal.str ""),
         ("denomination", JVal.str ""), ("categoryInSupermarket", JVal.null),
         ("brand", JVal.str "MAKRO"), ("manufacturer", JVal.null),
         ("description", JVal.str ""), ("measuringUnit", JVal.null),
         ("units", JVal.str ""), ("priceWithTax", JVal.str ""),
         ("price", JVal.str "")] R =
      Except.ok (JVal.null,
        [("productIdInSupermarket", JVal.str ""),
         ("denomination", JVal.str ""), ("categoryInSupermarket", JVal.null),
         ("brand", JVal.str "MAKRO"), ("manufacturer", JVal.null),
         ("description", JVal.str ""), ("measuringUnit", JVal.null),
         ("units", JVal.str ""), ("priceWithTax", JVal.str ""),
         ("price", JVal.str ""), ("unitPriceWithOffer", JVal.null),
         ("percentPromotion", JVal.null)]) := by
    unfold handle_offer_price
    rw [show get_value R promoPath = Except.ok (JVal.str "") from h1 _,
      show get_value R levelsPath = Except.ok (JVal.str "") from h1 _]
    rfl
  have h_kg : ∀ its : Items,
      handle_kg_gross (JVal.str "") its R =
        Except.ok (JVal.str "", setKey its "unitPrice" (JVal.str ""),
          false) := by
    intro its
    rfl
  have h_cat : handle_category_in_supermarket (JVal.str "") =
      Except.ok JVal.null := rfl
  have h_brand : handle_brand (JVal.str "") = JVal.str "MAKRO" := rfl
  have h_manu : handle_manufacturer (JVal.str "") = Except.ok JVal.null := rfl
  have h_weight : handle_is_weight_article (JVal.str "") = JVal.null := rfl
  have h_ing : handle_ingredients (JVal.str "") = Except.ok JVal.null := rfl
  have h_nutr : handle_nutrition (JVal.str "") = Except.ok JVal.null := rfl
  have h_char : handle_characteristics (JVal.str "") =
      Except.ok JVal.null := rfl
  simp [runFields, fieldsMap, runFieldsAux, applyField, applyHandler, h1, h2,
    h_cat, h_brand, h_manu, h_meas, h_weight, h_ing, h_nutr, h_char, h_offer,
    h_kg, setKey, missingRecord]

/-- C4 witness: the amended statement at a concrete document without the
variants and brandName keys. -/
theorem assembler_missing_data_amended_witness :
    runFields (JVal.obj [("foo", JVal.num 1)]) false =
      Except.ok (missingRecord, false) :=
  assembler_missing_data_amended (JVal.obj [("foo", JVal.num 1)]) false
    (fun _ => rfl) (by rfl)
